import Mathlib

/-!
Verification development for the CREDA screening core: a shallow embedding of
the text-analysis and decision pipeline (textAnalysis.js, AuthenticityScorer.js,
DecisionEngine.js, SkillMapper.js, FollowUpEngine.js, constants.js) together
with theorems settling the specification claims about it.

Strings are modelled as Lean `String`/`List Char`; all inputs of interest are
ASCII.  JavaScript `Math.round` is modelled two ways.  At the sites where
IEEE doubles flip half-way cases against exact arithmetic — the session
score's `round(weightedSum/totalWeight)` and
`round(averageScore·(consistencyScore/100))` in `calculateOverallAuthenticity`
and the skill-match `round((matched/totalRequired)·100)` in `finishMapping` —
the float expression is evaluated in an exact model of binary64 arithmetic
(`F64`: dyadic values, round to nearest, ties to even) and `Math.round` is
the exact half-up rounding of the resulting double.  The remaining round
sites keep the exact half-up model `jsRoundDiv`; the properties stated about
them (an iff against the self-computed score, monotonicity, bounds, values
at float-exact inputs) hold of the float program as well.  The two places
where the source takes a real square root are modelled exactly through
integer comparisons (see `analyzeConsistency` and
`calculateDecisionConfidence`).  JavaScript regular expressions appearing in
the source are modelled by a small token-pattern engine (`Tok`) that follows
the leftmost, greedy-with-backtracking, first-alternative semantics of the
original patterns.  `new RegExp` on an invalid pattern (the source interpolates
skill names such as "c++" without escaping) is modelled by `Except`.
-/

set_option maxRecDepth 100000

namespace Creda

/-- ASCII lowercase conversion of one character (JS `toLowerCase` on ASCII). -/
def lowerChar (c : Char) : Char :=
  if 'A' ≤ c ∧ c ≤ 'Z' then Char.ofNat (c.toNat + 32) else c

/-- Lowercase a character list. -/
def lowerL (cs : List Char) : List Char := cs.map lowerChar

/-- Lowercase a string (JS `String.prototype.toLowerCase` on ASCII input). -/
def jsLower (s : String) : String := ⟨lowerL s.data⟩

/-- JS regex word character: `[A-Za-z0-9_]`. -/
def isWordChar (c : Char) : Bool :=
  ('a' ≤ c ∧ c ≤ 'z') ∨ ('A' ≤ c ∧ c ≤ 'Z') ∨ ('0' ≤ c ∧ c ≤ '9') ∨ c = '_'

/-- Word-character test on an optional character (out of range = non-word). -/
def isWordOpt : Option Char → Bool
  | none => false
  | some c => isWordChar c

/-- JS regex whitespace `\s` restricted to ASCII. -/
def isJsWs (c : Char) : Bool :=
  c = ' ' ∨ c = '\t' ∨ c = '\n' ∨ c = '\r' ∨ c = '\x0b' ∨ c = '\x0c'

/-- JS regex digit `\d`. -/
def isDigitC (c : Char) : Bool := '0' ≤ c ∧ c ≤ '9'

/-- Character class `[,\d]` used by the metric patterns. -/
def isCommaDigit (c : Char) : Bool := c = ',' ∨ isDigitC c

/-- Does `p` occur literally at the start of `cs`? -/
def litAt : List Char → List Char → Bool
  | [], _ => true
  | _ :: _, [] => false
  | p :: ps, c :: cs => p = c ∧ litAt ps cs

/-- Does `pat` occur as a contiguous subsequence of `text`?
(JS `String.prototype.includes`, both sides as given). -/
def seqContains (pat : List Char) : List Char → Bool
  | [] => litAt pat []
  | c :: cs => litAt pat (c :: cs) ∨ seqContains pat cs

/-- `text.toLowerCase().includes(pat)` for an already-lowercase `pat`. -/
def containsCI (text pat : String) : Bool := seqContains pat.data (lowerL text.data)

/-- JS `Math.round (a / b)` for natural `a`, positive natural `b`
(round half away from zero, here half up). -/
def jsRoundDiv (a b : Nat) : Nat := (2 * a + b) / (2 * b)

/-- JS `String.prototype.slice(0, n)` on ASCII strings. -/
def jsSlice (s : String) (n : Nat) : String := ⟨s.data.take n⟩

/-- Replace every (non-overlapping, left-to-right) occurrence of `pat` by
`rep` (JS `String.prototype.replace` with a global literal pattern).
`pat` is expected non-empty; an empty pattern is returned unchanged. -/
def replaceAllL (pat rep : List Char) : List Char → Nat → List Char
  | [], _ => []
  | _ :: cs, skip + 1 => replaceAllL pat rep cs skip
  | c :: cs, 0 =>
    if pat.length = 0 then c :: cs
    else if litAt pat (c :: cs) then
      rep ++ replaceAllL pat rep cs (pat.length - 1)
    else
      c :: replaceAllL pat rep cs 0

/-- String version of `replaceAllL`. -/
def jsReplaceAll (s pat rep : String) : String := ⟨replaceAllL pat.data rep.data s.data 0⟩

/-! ### An exact model of IEEE-754 binary64 arithmetic

The session authenticity score and the skill-match score round float
expressions whose double evaluation can land just below a half-integer
(e.g. `45 * (70 / 100)` is the double `31.499999999999996`, so JS
`Math.round` gives 31 where exact arithmetic would give 32).  Those sites
are therefore evaluated in an exact model of binary64: every value reached
there is a nonnegative dyadic rational `num / 2^den2`, kept with enough
precision that `roundRatio` — round to nearest, ties to even, at 53
significant bits — is exactly the IEEE double operation.  Exponents stay
in a tiny range (all values here are between 2⁻⁵³ and 2¹⁰ or exactly 0),
so overflow, underflow and subnormals never arise. -/

/-- Fuel-driven helper for `natLog2` (structural, so it reduces). -/
def log2Fuel : Nat → Nat → Nat
  | 0, _ => 0
  | fuel + 1, n => if 2 ≤ n then log2Fuel fuel (n / 2) + 1 else 0

/-- `⌊log₂ n⌋` for `n ≥ 1` (0 at 0). -/
def natLog2 (n : Nat) : Nat := log2Fuel n n

/-- Is `2^k ≤ a / b` (as exact rationals, `k` possibly negative)? -/
def le2pow (k : Int) (a b : Nat) : Bool :=
  if 0 ≤ k then b * 2 ^ k.toNat ≤ a else b ≤ a * 2 ^ (-k).toNat

/-- `⌊log₂ (a / b)⌋` for positive `a`, `b`. -/
def qfloorLog2 (a b : Nat) : Int :=
  let k0 : Int := (natLog2 a : Int) - (natLog2 b : Int)
  if le2pow k0 a b then k0 else k0 - 1

/-- Round `N / D` to the nearest integer, ties to even (`D > 0`). -/
def rne (N D : Nat) : Nat :=
  let q := N / D
  let r := N % D
  if 2 * r < D then q else if D < 2 * r then q + 1
  else if q % 2 = 0 then q else q + 1

/-- A nonnegative binary64 value, represented exactly as `num / 2^den2`.
Results of `roundRatio` have `num < 2^53` after dividing out `2^den2`. -/
structure F64 where
  num : Nat
  den2 : Nat
deriving Repr, DecidableEq

/-- Round the exact rational `N / D` (`D > 0`) to the nearest binary64
value: the 53-bit significand is chosen by round-to-nearest-ties-even.
This is the result every IEEE basic operation below returns. -/
def roundRatio (N D : Nat) : F64 :=
  if N = 0 then ⟨0, 0⟩
  else
    let k := qfloorLog2 N D
    let s : Int := 52 - k
    if 0 ≤ s then ⟨rne (N * 2 ^ s.toNat) D, s.toNat⟩
    else ⟨rne N (D * 2 ^ (-s).toNat) * 2 ^ (-s).toNat, 0⟩

/-- The double nearest a natural number (exact for n < 2⁵³). -/
def F64.ofNat (n : Nat) : F64 := roundRatio n 1

/-- IEEE binary64 addition (correctly rounded exact sum). -/
def F64.add (x y : F64) : F64 :=
  roundRatio (x.num * 2 ^ y.den2 + y.num * 2 ^ x.den2) (2 ^ (x.den2 + y.den2))

/-- IEEE binary64 multiplication (correctly rounded exact product). -/
def F64.mul (x y : F64) : F64 := roundRatio (x.num * y.num) (2 ^ (x.den2 + y.den2))

/-- IEEE binary64 division (correctly rounded exact quotient). -/
def F64.div (x y : F64) : F64 := roundRatio (x.num * 2 ^ y.den2) (y.num * 2 ^ x.den2)

/-- JS `Math.round` of a nonnegative double: `⌊x + 1/2⌋`, computed
exactly on the dyadic value (half-way doubles round up). -/
def F64.jsRound (x : F64) : Nat := (2 * x.num + 2 ^ x.den2) / 2 ^ (x.den2 + 1)

/-! ### A small engine for the regular expressions of the source

Each regex of the source that is not a plain substring or whole-word test is a
sequence of tokens: literals, ordered literal alternations, optional literals,
and character-class runs (`\s*`, `\s+`, `\d+`, `[^\s]+`, `[,\d]*`).  Greedy
quantifiers try the longest run first, alternations are tried left to right,
optional parts are tried present-first — the backtracking order of the
original engine on these patterns. -/

/-- Character classes appearing in the source's patterns. -/
inductive CharCls
  | ws | digit | nonws | commaDigit
deriving DecidableEq

/-- Membership in a character class. -/
def clsMatch : CharCls → Char → Bool
  | .ws, c => isJsWs c
  | .digit, c => isDigitC c
  | .nonws, c => !(isJsWs c)
  | .commaDigit, c => isCommaDigit c

/-- Pattern tokens. -/
inductive Tok
  | lit (s : List Char)
  | alts (ss : List (List Char))
  | opt (s : List Char)
  | cls (k : CharCls) (atLeastOne : Bool)

/-- Length consumed by the first match of the token sequence at the start of
`cs`, following greedy/ordered backtracking; `none` when no match starts
here.  Text and pattern literals are expected lowercase. -/
def matchLen : List Tok → List Char → Option Nat
  | [], _ => some 0
  | .lit s :: ts, cs =>
      if litAt s cs then (matchLen ts (cs.drop s.length)).map (· + s.length) else none
  | .alts ss :: ts, cs =>
      ss.findSome? fun s =>
        if litAt s cs then (matchLen ts (cs.drop s.length)).map (· + s.length) else none
  | .opt s :: ts, cs =>
      match (if litAt s cs then (matchLen ts (cs.drop s.length)).map (· + s.length) else none) with
      | some n => some n
      | none => matchLen ts cs
  | .cls k one :: ts, cs =>
      let run := (cs.takeWhile (clsMatch k)).length
      let lo : Nat := if one then 1 else 0
      ((List.range (run + 1)).reverse.filter (fun i => lo ≤ i)).findSome? fun i =>
        (matchLen ts (cs.drop i)).map (· + i)

/-- First matching pattern of an ordered alternation of token sequences. -/
def matchFirst (ps : List (List Tok)) (cs : List Char) : Option Nat :=
  ps.findSome? (matchLen · cs)

/-- Count non-overlapping matches, scanning left to right (global regex
match); on a match of length `n` the scan resumes `max n 1` further. -/
def countMatchesAux (ps : List (List Tok)) : List Char → Nat → Nat
  | [], _ => 0
  | _ :: cs, skip + 1 => countMatchesAux ps cs skip
  | c :: cs, 0 =>
    match matchFirst ps (c :: cs) with
    | some n => 1 + countMatchesAux ps cs (max n 1 - 1)
    | none => countMatchesAux ps cs 0

/-- Count matches of an alternation of patterns in `text`, case-insensitively. -/
def countMatches (ps : List (List Tok)) (text : String) : Nat :=
  countMatchesAux ps (lowerL text.data) 0

/-- Is there a match at some position (`RegExp.prototype.test`)?  When
`needB` is set the position must lie on a word boundary (a leading `\b`). -/
def testAux (ps : List (List Tok)) (needB : Bool) : List Char → Option Char → Bool
  | [], _ => (matchFirst ps []).isSome
  | c :: cs, prev =>
    ((!needB || (isWordOpt prev != isWordChar c)) && (matchFirst ps (c :: cs)).isSome)
      || testAux ps needB cs (some c)

/-- Presence test, case-insensitive, no boundary requirement. -/
def testPat (ps : List (List Tok)) (text : String) : Bool :=
  testAux ps false (lowerL text.data) none

/-- Presence test, case-insensitive, with a leading word boundary. -/
def testPatB (ps : List (List Tok)) (text : String) : Bool :=
  testAux ps true (lowerL text.data) none

/-! ### Whole-word matching (`\b … \b` patterns) -/

/-- One pattern character against one text character; with `dotWild` a `.` in
the pattern is the regex wildcard (anything but a newline), as in the
unescaped pattern of `findSkillContext`. -/
def charMatchDW (dotWild : Bool) (p c : Char) : Bool :=
  if dotWild ∧ p = '.' then c ≠ '\n' else p = c

/-- Literal-at-start test under `charMatchDW`. -/
def litAtDW (dotWild : Bool) : List Char → List Char → Bool
  | [], _ => true
  | _ :: _, [] => false
  | p :: ps, c :: cs => charMatchDW dotWild p c && litAtDW dotWild ps cs

/-- Count the non-overlapping whole-word occurrences of the (non-empty,
lowercase) pattern `p0 :: ps`, scanning lowercase text with the previous
character tracked for the word boundaries. -/
def countWWAux (dotWild : Bool) (p0 : Char) (ps : List Char) :
    List Char → Option Char → Nat → Nat
  | [], _, _ => 0
  | c :: cs, _, skip + 1 => countWWAux dotWild p0 ps cs (some c) skip
  | c :: cs, prev, 0 =>
    let here := c :: cs
    let m := ps.length + 1
    if (isWordOpt prev != isWordChar c) && litAtDW dotWild (p0 :: ps) here
        && (isWordOpt (here.get? (m - 1)) != isWordOpt (here.get? m)) then
      1 + countWWAux dotWild p0 ps cs (some c) (m - 1)
    else
      countWWAux dotWild p0 ps cs (some c) 0

/-- `text.match(new RegExp("\\b" + pat + "\\b", "gi"))?.length ?? 0` for a
pattern with no metacharacters (or, with `dotWild`, a literal pattern whose
dots act as wildcards). -/
def countWholeWordCI (dotWild : Bool) (pat text : String) : Nat :=
  match lowerL pat.data with
  | [] => 0
  | p :: ps => countWWAux dotWild p ps (lowerL text.data) none 0

/-- First alternative (in order) matching wholly at the start of `here` with
its trailing word boundary; returns the consumed length. -/
def wwAltFind (here : List Char) : List (List Char) → Option Nat
  | [] => none
  | w :: rest =>
    if litAt w here
        && (isWordOpt (here.get? (w.length - 1)) != isWordOpt (here.get? w.length)) then
      some w.length
    else wwAltFind here rest

/-- Count matches of `\b(w₁|w₂|…)\b` (global, case-insensitive) over
lowercase text, alternatives tried in order at each boundary position. -/
def countAltWWAux (ws : List (List Char)) : List Char → Option Char → Nat → Nat
  | [], _, _ => 0
  | c :: cs, _, skip + 1 => countAltWWAux ws cs (some c) skip
  | c :: cs, prev, 0 =>
    if isWordOpt prev != isWordChar c then
      match wwAltFind (c :: cs) ws with
      | some n => 1 + countAltWWAux ws cs (some c) (max n 1 - 1)
      | none => countAltWWAux ws cs (some c) 0
    else countAltWWAux ws cs (some c) 0

/-! ### Validity of interpolated regex fragments

The source builds `new RegExp("\\b" + skill + "\\b")` and
`new RegExp("[^.]*\\b" + skill + "\\b[^.]*\\.")` without escaping `skill`.
Over the characters that occur in skill names (letters, digits, and
`+ # . - / ` and space) the fragment is a sequence of atoms and quantifiers;
compilation fails with "nothing to repeat" when `+` or `*` follows anything
but an atom, or `?` follows anything but an atom or a greedy quantifier.
A quantifier directly after the preceding `\b` is also invalid. -/

/-- Scan a fragment; state `st`: 0 = nothing quantifiable yet (start, after
`\b` or after a lazy marker), 1 = after an atom, 2 = after a greedy
quantifier. -/
def regexTailOk : List Char → Nat → Bool
  | [], _ => true
  | c :: cs, st =>
    if c = '+' ∨ c = '*' then
      (st = 1 : Bool) && regexTailOk cs 2
    else if c = '?' then
      (st = 1 ∨ st = 2 : Bool) && regexTailOk cs (if st = 1 then 2 else 0)
    else regexTailOk cs 1

/-- Does `new RegExp("\\b" + skill + "\\b")` compile? -/
def jsRegexFragmentOk (skill : String) : Bool := regexTailOk skill.data 0

/-! ## utils/textAnalysis.js -/

/-- Literal token. -/
def L (s : String) : Tok := .lit s.data

/-- Ordered literal alternation token. -/
def A (ss : List String) : Tok := .alts (ss.map String.data)

/-- Optional literal token. -/
def O (s : String) : Tok := .opt s.data

/-- `\s+` -/
def ws1 : Tok := .cls .ws true

/-- `\s*` -/
def ws0 : Tok := .cls .ws false

/-- `\d+` -/
def dig1 : Tok := .cls .digit true

/-- `[^\s]+` -/
def nonws1 : Tok := .cls .nonws true

/-- `[,\d]*` -/
def cd0 : Tok := .cls .commaDigit false

/-- The words of `/\b(I|my|me|we|our|us|myself|ourselves)\b/gi`, in
alternation order. -/
def fpWords : List (List Char) :=
  [['i'], "my".data, "me".data, "we".data, "our".data, "us".data,
   "myself".data, "ourselves".data]

/-- `countFirstPersonIndicators(text)` (textAnalysis.js 8–12). -/
def countFirstPersonIndicators (text : String) : Nat :=
  countAltWWAux fpWords (lowerL text.data) none 0

/-- Situation cues of `detectSTARMethod` (textAnalysis.js 26–33). -/
def situationPatterns : List (List Tok) :=
  [[L "when", ws1, A ["i", "we"], ws1, A ["was", "were", "worked", "had"]],
   [L "at", ws1, L "my", ws1, A ["previous", "last", "former"]],
   [L "on", ws1, A ["a", "the"], ws1, L "project"],
   [L "the", ws1, A ["context", "situation", "scenario", "background"], ws1, A ["was", "is"]],
   [L "there", ws1, L "was", ws1, A ["a", "an"], ws1, A ["problem", "issue", "challenge"]],
   [L "we", ws1, A ["had", "were", "needed"], ws1, L "to"]]

/-- Task cues (textAnalysis.js 40–45). -/
def taskPatterns : List (List Tok) :=
  [[L "my", ws1, A ["role", "responsibility", "job", "task"], ws1, A ["was", "is"]],
   [L "i", ws1, A ["was", "am"], ws1, A ["responsible", "tasked", "assigned"]],
   [L "i", ws1, L "needed", ws1, L "to"],
   [L "goal", ws1, A ["was", "is"], ws1, L "to"],
   [L "objective", ws1, A ["was", "is"]]]

/-- Action cues (textAnalysis.js 53–60). -/
def actionPatterns : List (List Tok) :=
  [[L "i", ws1, A ["built", "created", "developed", "implemented", "wrote", "designed", "fixed", "debugged"]],
   [L "i", ws1, A ["decided", "chose", "selected", "used", "applied"]],
   [L "my", ws1, L "approach", ws1, A ["was", "is"]],
   [L "i", ws1, A ["started", "began"], ws1, L "by"],
   [L "first", O ",", ws1, L "i", ws1],
   [L "then", ws1, L "i", ws1],
   [L "step", ws1, L "by", ws1, L "step"]]

/-- Result cues (textAnalysis.js 68–77); the inner alternations
`(\d+|by)` and `(led\s+to|resulted\s+in|caused)` are expanded into
separate alternatives. -/
def resultPatterns : List (List Tok) :=
  [[L "result", O "ed", ws1, A ["was", "in"]],
   [A ["reduced", "improved", "increased", "saved"], ws1, dig1],
   [A ["reduced", "improved", "increased", "saved"], ws1, L "by"],
   [dig1, L "%", ws0, A ["improvement", "reduction", "increase", "faster"]],
   [L "outcome", ws1, A ["was", "is"]],
   [L "we", ws1, A ["achieved", "delivered", "shipped", "launched"]],
   [L "this", ws1, L "led", ws1, L "to"],
   [L "this", ws1, L "resulted", ws1, L "in"],
   [L "this", ws1, L "caused"],
   [L "in", ws1, L "the", ws1, L "end"],
   [L "finally"]]

/-- The four STAR component flags. -/
structure STARComponents where
  situation : Bool
  task : Bool
  action : Bool
  result : Bool
deriving Repr, DecidableEq

/-- Result of `detectSTARMethod`. -/
structure STARResult where
  score : Nat
  components : STARComponents
  isComplete : Bool
  componentCount : Nat
deriving Repr, DecidableEq

/-- `detectSTARMethod(text)` (textAnalysis.js 20–89): each matched cue group
contributes 25 points; complete when at least 3 of 4 groups match. -/
def detectSTARMethod (text : String) : STARResult :=
  let s := testPat situationPatterns text
  let t := testPat taskPatterns text
  let a := testPat actionPatterns text
  let r := testPat resultPatterns text
  let count := (if s then 1 else 0) + (if t then 1 else 0)
    + (if a then 1 else 0) + (if r then 1 else 0)
  { score := 25 * count
    components := ⟨s, t, a, r⟩
    isComplete := 3 ≤ count
    componentCount := count }

/-- `/\d+(\.\d+)?%/g`, the optional fraction expanded present-first. -/
def metricPercentP : List (List Tok) :=
  [[dig1, L ".", dig1, L "%"], [dig1, L "%"]]

/-- `/\d+\s*(ms|milliseconds?|seconds?|minutes?|hours?|days?|weeks?|months?)/gi`,
optional plurals expanded, longer form first. -/
def metricTimeP : List (List Tok) :=
  [[dig1, ws0, A ["ms", "milliseconds", "millisecond", "seconds", "second",
      "minutes", "minute", "hours", "hour", "days", "day", "weeks", "week",
      "months", "month"]]]

/-- `/\d+[,\d]*\s*(users?|customers?|requests?|transactions?|records?|lines?|files?)/gi`. -/
def metricCountP : List (List Tok) :=
  [[dig1, cd0, ws0, A ["users", "user", "customers", "customer", "requests",
      "request", "transactions", "transaction", "records", "record",
      "lines", "line", "files", "file"]]]

/-- `/\$\d+[,\d]*([kKmM])?|\d+[,\d]*\s*(dollars?|revenue)/gi`, the top-level
alternation as two ordered patterns, the optional suffix as an alternation
with an empty branch. -/
def metricMoneyP : List (List Tok) :=
  [[L "$", dig1, cd0, A ["k", "m", ""]],
   [dig1, cd0, ws0, A ["dollars", "dollar", "revenue"]]]

/-- Result of `detectMetrics`; the matched substrings themselves are not
retained, only how many matches the four passes produced in total, which is
all later computation reads (`metrics.length` / `count` / `score`). -/
structure MetricsResult where
  hasMetrics : Bool
  count : Nat
  score : Nat
deriving Repr, DecidableEq

/-- `detectMetrics(text)` (textAnalysis.js 96–129). -/
def detectMetrics (text : String) : MetricsResult :=
  let c := countMatches metricPercentP text + countMatches metricTimeP text
    + countMatches metricCountP text + countMatches metricMoneyP text
  { hasMetrics := 0 < c, count := c, score := min (c * 20) 100 }

/-- The technical-detail presence patterns of `calculateSpecificityScore`
(textAnalysis.js 149–158), except the issue-reference pattern which needs
its leading `\b` (see `issueRefHit`). -/
def technicalPatterns : List (List (List Tok)) :=
  [[[L "error:", ws0, nonws1]],
   [[L "version", ws0, dig1, L ".", dig1]],
   [[dig1, ws0, A ["ms", "seconds", "minutes"]]],
   [[dig1, L "%"]],
   [[L "localhost:", dig1]],
   [[L "http", O "s", L "://", nonws1]],
   [[L ".", A ["js", "py", "java", "ts", "css", "html"]]]]

/-- `/\b(bug|issue|ticket)\s*#?\d+/i`. -/
def issueRefHit (text : String) : Bool :=
  testPatB [[A ["bug", "issue", "ticket"], ws0, O "#", dig1]] text

/-- Developer-tool names checked as substrings (textAnalysis.js 167–170). -/
def toolMentions : List String :=
  ["npm", "pip", "docker", "git", "webpack", "vite", "babel", "eslint",
   "postman", "chrome devtools", "vs code", "intellij", "terminal", "console"]

/-- `calculateSpecificityScore(text)` (textAnalysis.js 136–183).  The STAR
score is a multiple of 25 and the metrics score a multiple of 20, so
`star*0.4 + metrics*0.3` is the integer `(4*star + 3*metrics)/10` and the
final `Math.round` is the identity. -/
def calculateSpecificityScore (text : String) : Nat :=
  let star := (detectSTARMethod text).score
  let met := (detectMetrics text).score
  let techHits := ((technicalPatterns.filter (fun p => testPat p text)).length)
    + (if issueRefHit text then 1 else 0)
  let toolHits := (toolMentions.filter (fun tl => containsCI text tl)).length
  let lenBonus := (if 200 < text.length then 5 else 0)
    + (if 400 < text.length then 5 else 0)
  min ((4 * star + 3 * met) / 10 + 5 * techHits + 4 * toolHits + lenBonus) 100

/-- Generic phrases (textAnalysis.js 194–211). -/
def genericPhrases : List String :=
  ["in general", "typically", "usually", "best practice", "standard approach",
   "most developers", "it depends", "is defined as", "refers to",
   "allows developers", "is used for", "is a technique", "is a method",
   "helps in", "enables", "facilitates"]

/-- Overly polished phrases (textAnalysis.js 220–228). -/
def polishedPhrases : List String :=
  ["seamlessly", "flawlessly", "perfectly", "without any issues",
   "worked as expected", "no problems", "everything went smoothly"]

/-- Result of `detectGenericPatterns`. -/
structure GenericResult where
  isGeneric : Bool
  patterns : List String
  genericScore : Nat
deriving Repr, DecidableEq

/-- `detectGenericPatterns(text)` (textAnalysis.js 190–241): substring match
of the two phrase lists, generic then polished. -/
def detectGenericPatterns (text : String) : GenericResult :=
  let found := (genericPhrases ++ polishedPhrases).filter (fun p => containsCI text p)
  { isGeneric := 2 ≤ found.length
    patterns := found
    genericScore := min (found.length * 15) 100 }

/-- Imperfection indicators (textAnalysis.js 253–275). -/
def positiveIndicators : List String :=
  ["mistake", "error", "wrong", "confused", "struggle", "difficult",
   "challenge", "learned", "realized", "should have", "could have",
   "in hindsight", "looking back", "at first", "initially",
   "didn\x27t know", "wasn\x27t aware", "took time", "failed", "broke", "crashed"]

/-- `calculateImperfectionScore(text)` (textAnalysis.js 248–284): 12 points
per listed phrase found as a substring, capped at 100. -/
def calculateImperfectionScore (text : String) : Nat :=
  min (12 * (positiveIndicators.filter (fun p => containsCI text p)).length) 100

/-- Component scores of `calculateAuthenticityScore`. -/
structure AuthBreakdown where
  personalContext : Nat
  specificDetails : Nat
  imperfectNarrative : Nat
  naturalLanguage : Nat
deriving Repr, DecidableEq

/-- Flags of `calculateAuthenticityScore`. -/
structure AuthFlags where
  isGeneric : Bool
  genericPatterns : List String
  firstPersonCount : Nat
  textLength : Nat
deriving Repr, DecidableEq

/-- Result of `calculateAuthenticityScore`. -/
structure AuthScore where
  overall : Nat
  breakdown : AuthBreakdown
  flags : AuthFlags
deriving Repr, DecidableEq

/-- `calculateAuthenticityScore(text)` (textAnalysis.js 291–333): weighted
combination `.25 .25 .20 .20` plus the fixed neutral `50 * .10`, rounded and
clamped to [0, 100]. -/
def calculateAuthenticityScore (text : String) : AuthScore :=
  let fp := countFirstPersonIndicators text
  let spec := calculateSpecificityScore text
  let g := detectGenericPatterns text
  let imp := calculateImperfectionScore text
  let pc := min (fp * 10) 100
  let nl := 100 - g.genericScore
  let overall := jsRoundDiv (25 * pc + 25 * spec + 20 * imp + 20 * nl + 500) 100
  { overall := min (max overall 0) 100
    breakdown := ⟨pc, spec, imp, nl⟩
    flags := ⟨g.isGeneric, g.patterns, fp, text.length⟩ }

/-- `analyzeConsistency(answers)` (textAnalysis.js 340–356): with at least
two answers, `round(100 − min(2·√variance, 50))` of the per-answer
specificity scores, computed exactly: with `K = n·Σd² − (Σd)²` the real
spread is `2·√K / n`, the cap fires iff `4K ≥ 2500·n²`, and otherwise the
rounded result is `100 − t` for the least `t` with `n²·(2t+1)² ≥ 16K`. -/
def analyzeConsistency (answers : List String) : Nat :=
  if answers.length < 2 then 50
  else
    let d := answers.map calculateSpecificityScore
    let n := d.length
    let s1 := d.sum
    let s2 := (d.map (fun x => x * x)).sum
    let K := n * s2 - s1 * s1
    if 2500 * n ^ 2 ≤ 4 * K then 50
    else 100 - (((List.range 51).find? (fun t => 16 * K ≤ n ^ 2 * (2 * t + 1) ^ 2)).getD 50)

/-- Technology keywords of `extractTopics` (textAnalysis.js 368–373). -/
def techKeywords : List String :=
  ["api", "database", "frontend", "backend", "server", "client",
   "authentication", "authorization", "testing", "deployment",
   "debugging", "optimization", "refactoring", "architecture",
   "performance", "security", "scalability", "cache", "queue"]

/-- `extractTopics(text)` (textAnalysis.js 363–382); the keywords are
pairwise distinct so the final `Set` deduplication is a no-op. -/
def extractTopics (text : String) : List String :=
  techKeywords.filter (fun k => containsCI text k)

/-! ## engine/AuthenticityScorer.js -/

/-- A question object as produced by the generators. -/
structure Question where
  id : String
  skill : String
  type : String
  priority : String
  text : String
deriving Repr, DecidableEq

/-- `countSkillMentions(answer, skill)` (AuthenticityScorer.js 46–50) builds
`new RegExp("\\b" + skill + "\\b", "gi")` without escaping: construction
throws on skill names such as "c++", and an unescaped `.` in the skill acts
as the wildcard. -/
def countSkillMentions (answer skill : String) : Except String Nat :=
  if jsRegexFragmentOk skill then .ok (countWholeWordCI true skill answer)
  else .error "SyntaxError: Invalid regular expression: nothing to repeat"

/-- `calculateRelevanceScore(answer, question)` (AuthenticityScorer.js 55–63). -/
def calculateRelevanceScore (answer : String) (question : Question) : Nat :=
  let answerTopics := extractTopics answer
  let questionTopics := extractTopics question.text
  let overlap := (answerTopics.filter (fun t => questionTopics.contains t)).length
  if 0 < overlap ∨ seqContains (lowerL question.skill.data) (lowerL answer.data) then 80
  else 40

/-- Failure/challenge vocabulary (AuthenticityScorer.js 69–73). -/
def failureIndicators : List String :=
  ["failed", "mistake", "error", "wrong", "problem", "issue",
   "struggled", "difficult", "challenge", "bug", "crash",
   "didn\x27t work", "broke", "fixed", "debug"]

/-- `hasFailureIndicators(answer)` (AuthenticityScorer.js 68–77). -/
def hasFailureIndicators (answer : String) : Bool :=
  failureIndicators.any (fun i => containsCI answer i)

/-- `RED_FLAG_PATTERNS.generic` (constants.js). -/
def redFlagGeneric : List String :=
  ["in general", "typically", "usually we would", "best practice is",
   "the standard approach", "most developers", "it depends on"]

/-- `RED_FLAG_PATTERNS.textbook` (constants.js). -/
def redFlagTextbook : List String :=
  ["is defined as", "refers to", "is a concept", "is a technique",
   "is used for", "allows developers to"]

/-- `RED_FLAG_PATTERNS.overlyPolished` (constants.js). -/
def redFlagPolished : List String :=
  ["seamlessly", "flawlessly", "perfectly", "without any issues",
   "everything worked as expected"]

/-- One red flag; the synthetic "vague" flag has no pattern. -/
structure RedFlag where
  type : String
  pattern : Option String
  severity : String
  message : String
deriving Repr, DecidableEq

/-- `/\d+|error|bug|version|file|function|method/i.test(answer)`
(AuthenticityScorer.js 124). -/
def hasSpecificsRF (answer : String) : Bool :=
  answer.data.any isDigitC
    || ["error", "bug", "version", "file", "function", "method"].any
        (fun w => containsCI answer w)

/-- `identifyRedFlags(answer)` (AuthenticityScorer.js 84–135). -/
def identifyRedFlags (answer : String) : List RedFlag :=
  ((redFlagGeneric.filter (fun p => containsCI answer p)).map
      (fun p => ⟨"generic", some p, "medium", "Uses generic phrasing"⟩))
  ++ ((redFlagTextbook.filter (fun p => containsCI answer p)).map
      (fun p => ⟨"textbook", some p, "high", "Uses textbook-style language"⟩))
  ++ ((redFlagPolished.filter (fun p => containsCI answer p)).map
      (fun p => ⟨"polished", some p, "medium", "Answer is suspiciously polished"⟩))
  ++ (if 150 < answer.length ∧ ¬ hasSpecificsRF answer then
        [⟨"vague", none, "high", "Long answer without specific details"⟩]
      else [])

/-- Flags of `scoreAnswerAuthenticity` (the base flags plus the
question-specific ones spread in). -/
structure ScoredFlags where
  isGeneric : Bool
  genericPatterns : List String
  firstPersonCount : Nat
  textLength : Nat
  skillMentions : Nat
  relevanceScore : Nat
  typeMatch : Bool
deriving Repr, DecidableEq

/-- Result of `scoreAnswerAuthenticity`. -/
structure AnswerAuthenticity where
  score : Nat
  breakdown : AuthBreakdown
  flags : ScoredFlags
  redFlags : List RedFlag
deriving Repr, DecidableEq

/-- `scoreAnswerAuthenticity(answer, question)` (AuthenticityScorer.js
15–41): the 0.8 multiplier applies to a failure question without failure
vocabulary; `round(overall * 0.8)` is `jsRoundDiv (4*overall) 5`. -/
def scoreAnswerAuthenticity (answer : String) (question : Question) :
    Except String AnswerAuthenticity := do
  let base := calculateAuthenticityScore answer
  let skillMentions ← countSkillMentions answer question.skill
  let relevanceScore := calculateRelevanceScore answer question
  let penalized := question.type = "failure" ∧ ¬ hasFailureIndicators answer
  let adjustedScore := if penalized then jsRoundDiv (4 * base.overall) 5 else base.overall
  return { score := adjustedScore
           breakdown := base.breakdown
           flags := { isGeneric := base.flags.isGeneric
                      genericPatterns := base.flags.genericPatterns
                      firstPersonCount := base.flags.firstPersonCount
                      textLength := base.flags.textLength
                      skillMentions := skillMentions
                      relevanceScore := relevanceScore
                      typeMatch := ¬ penalized }
           redFlags := identifyRedFlags answer }

/-- A question/answer pair as accumulated by the orchestrator; `authenticity`
is the stored per-answer scoring result. -/
structure QAPair where
  question : Question
  answer : String
  authenticity : AnswerAuthenticity
deriving Repr, DecidableEq

/-- Result of `calculateOverallAuthenticity`; the fields absent from the
empty-input object are `Option`s. -/
structure OverallAuthenticity where
  score : Nat
  averageScore : Option Nat
  consistencyScore : Option Nat
  totalRedFlags : Option Nat
  assessment : String
  riskLevel : Option String
  confidence : Nat
deriving Repr, DecidableEq

/-- Priority weight of `calculateOverallAuthenticity`, in tenths
(1.5 / 1.0 / 0.7). -/
def priorityWeight10 (p : String) : Nat :=
  if p = "high" then 15 else if p = "medium" then 10 else 7

/-- `(authScore.score || 50)`: JS falsy coalescing maps a stored score of 0
to 50 (AuthenticityScorer.js 156). -/
def coalescedScore (qa : QAPair) : Nat :=
  if qa.authenticity.score = 0 then 50 else qa.authenticity.score

/-- The session consistency input of `calculateOverallAuthenticity`
(AuthenticityScorer.js 163–164): `analyzeConsistency` over the non-empty
answers, 70 when all answers are empty. -/
def sessionConsistency (qaPairs : List QAPair) : Nat :=
  let answers := (qaPairs.map QAPair.answer).filter (fun a => 0 < a.length)
  if 0 < answers.length then analyzeConsistency answers else 70

/-- The total red-flag count of the session (AuthenticityScorer.js 167–170). -/
def sessionRedFlags (qaPairs : List QAPair) : Nat :=
  (qaPairs.map (fun qa => qa.authenticity.redFlags.length)).sum

/-- The weight constants 1.5 / 1.0 / 0.7 of AuthenticityScorer.js 146–148
as binary64 values; 0.7 is the double nearest 7/10. -/
def priorityWeightF (p : String) : F64 :=
  if p = "high" then roundRatio 3 2
  else if p = "medium" then roundRatio 1 1
  else roundRatio 7 10

/-- The float accumulation `weightedSum += (authScore.score || 50) * weight`
(AuthenticityScorer.js 151–158), in list order. -/
def sessionWeightedSum (qaPairs : List QAPair) : F64 :=
  qaPairs.foldl
    (fun acc qa => acc.add ((F64.ofNat (coalescedScore qa)).mul
      (priorityWeightF qa.question.priority))) (F64.ofNat 0)

/-- The float accumulation `totalWeight += weight` (AuthenticityScorer.js
151–159), in list order. -/
def sessionTotalWeight (qaPairs : List QAPair) : F64 :=
  qaPairs.foldl
    (fun acc qa => acc.add (priorityWeightF qa.question.priority)) (F64.ofNat 0)

/-- `calculateOverallAuthenticity(qaPairs)` (AuthenticityScorer.js 142–201).
Both `Math.round` arguments are evaluated in the binary64 model `F64`,
because their double values can fall just below a half-integer. -/
def calculateOverallAuthenticity (qaPairs : List QAPair) : OverallAuthenticity :=
  if qaPairs.length = 0 then
    { score := 50, averageScore := none, consistencyScore := none
      totalRedFlags := none, assessment := "No data", riskLevel := none
      confidence := 0 }
  else
    let weightedSum := sessionWeightedSum qaPairs
    let totalWeight := sessionTotalWeight qaPairs
    let averageScore :=
      if 0 < totalWeight.num then (weightedSum.div totalWeight).jsRound else 50
    let consistencyScore := sessionConsistency qaPairs
    let totalRedFlags := sessionRedFlags qaPairs
    let finalScore := max (((F64.ofNat averageScore).mul
        ((F64.ofNat consistencyScore).div (F64.ofNat 100))).jsRound
      - totalRedFlags * 3) 20
    let assessment :=
      if 75 ≤ finalScore then
        "High authenticity - Answers show genuine personal experience"
      else if 55 ≤ finalScore then
        "Moderate authenticity - Some answers may need verification"
      else
        "Low authenticity - Answers appear generic or rehearsed"
    let riskLevel :=
      if 75 ≤ finalScore then "low" else if 55 ≤ finalScore then "medium" else "high"
    { score := finalScore
      averageScore := some averageScore
      consistencyScore := some consistencyScore
      totalRedFlags := some totalRedFlags
      assessment := assessment
      riskLevel := some riskLevel
      confidence := min (qaPairs.length * 15) 95 }

/-- Claim C7's session-score formula, following its words: each per-answer
score enters the weighted mean as stored (no falsy coalescing of 0), with
weights 1.5/1.0/0.7 by priority; then
`max(round(round(weightedMean)·consistencyScore/100) − 3·redFlags, 20)`.
Stated for comparison with `calculateOverallAuthenticity`. -/
def claimSessionScore (qaPairs : List QAPair) : Nat :=
  let weightedSum := (qaPairs.map
    (fun qa => qa.authenticity.score * priorityWeight10 qa.question.priority)).sum
  let totalWeight := (qaPairs.map
    (fun qa => priorityWeight10 qa.question.priority)).sum
  let weightedMean := if 0 < totalWeight then jsRoundDiv weightedSum totalWeight else 50
  max (jsRoundDiv (weightedMean * sessionConsistency qaPairs) 100
    - sessionRedFlags qaPairs * 3) 20

/-! ## engine/DecisionEngine.js -/

/-- The five evaluation metrics fed to `makeDecision`. -/
structure EvalMetrics where
  skillMatch : Nat
  depth : Nat
  authenticity : Nat
  communication : Nat
  consistency : Nat
deriving Repr, DecidableEq

/-- One threshold triple of `EVALUATION_THRESHOLDS` (constants.js 278–290). -/
structure ThresholdTriple where
  skillMatch : Nat
  authenticity : Nat
  overall : Nat
deriving Repr, DecidableEq

/-- `EVALUATION_THRESHOLDS.pass`. -/
def passThresholds : ThresholdTriple := ⟨70, 65, 70⟩

/-- `EVALUATION_THRESHOLDS.hold`. -/
def holdThresholds : ThresholdTriple := ⟨50, 50, 50⟩

/-- The weighted overall score of `makeDecision` (DecisionEngine.js 97–103):
`round(skillMatch*.30 + depth*.20 + authenticity*.25 + communication*.10 +
consistency*.15)`, computed exactly over the integer metrics. -/
def overallWeightedScore (m : EvalMetrics) : Nat :=
  jsRoundDiv (30 * m.skillMatch + 20 * m.depth + 25 * m.authenticity
    + 10 * m.communication + 15 * m.consistency) 100

/-- `calculateDecisionConfidence(metrics, decision)` (DecisionEngine.js
175–189), with the real `90 − √variance` rounded exactly: with
`K = 5·Σv² − (Σv)²` the spread is `√K / 5`; the value clamps to 60 iff
`K ≥ 22500`, and otherwise rounds to `90 − t` for the least `t` with
`25·(2t+1)² ≥ 4K`. -/
def calculateDecisionConfidence (m : EvalMetrics) (decision : String) : Nat :=
  let s := m.skillMatch + m.depth + m.authenticity + m.communication + m.consistency
  let s2 := m.skillMatch ^ 2 + m.depth ^ 2 + m.authenticity ^ 2
    + m.communication ^ 2 + m.consistency ^ 2
  let K := 5 * s2 - s ^ 2
  if decision = "PASS" ∧ 400 ≤ s then 95
  else if decision = "REJECT" ∧ s ≤ 175 then 95
  else if 22500 ≤ K then 60
  else 90 - ((List.range 31).find? (fun t => 4 * K ≤ 25 * (2 * t + 1) ^ 2)).getD 30

/-- Result of `makeDecision`. -/
structure DecisionResult where
  decision : String
  overallScore : Nat
  metrics : EvalMetrics
  reasons : List String
  concerns : List String
  confidence : Nat
deriving Repr, DecidableEq

/-- `makeDecision(metrics, …)` (DecisionEngine.js 93–170): sequential
automatic-reject checks, then the pass/hold/reject ladder against
`EVALUATION_THRESHOLDS`, then the explanatory reason/concern pushes. -/
def makeDecision (metrics : EvalMetrics) : DecisionResult :=
  let overallScore := overallWeightedScore metrics
  let early : Option (String × String) :=
    if metrics.authenticity < 40 then some ("REJECT", "Significant authenticity concerns")
    else if metrics.skillMatch < 35 then some ("REJECT", "Critical skill gaps for this role")
    else none
  let decision :=
    match early with
    | some (d, _) => d
    | none =>
      if passThresholds.overall ≤ overallScore
          ∧ passThresholds.skillMatch ≤ metrics.skillMatch
          ∧ passThresholds.authenticity ≤ metrics.authenticity then "PASS"
      else if holdThresholds.overall ≤ overallScore
          ∧ holdThresholds.skillMatch ≤ metrics.skillMatch then "HOLD"
      else "REJECT"
  let skillNote :=
    if 70 ≤ metrics.skillMatch then (["Strong alignment with required skills"], ([] : List String))
    else if 50 ≤ metrics.skillMatch then ([], ["Partial skill coverage - gaps in some areas"])
    else ([], ["Significant skill gaps for core requirements"])
  let authNote :=
    if 70 ≤ metrics.authenticity then (["Demonstrated genuine personal experience"], ([] : List String))
    else if 50 ≤ metrics.authenticity then ([], ["Some answers lacked specific details"])
    else ([], ["Answers appeared generic or rehearsed"])
  let depthNote :=
    if 70 ≤ metrics.depth then (["Good technical depth in responses"], ([] : List String))
    else if metrics.depth < 50 then ([], ["Limited technical depth shown"])
    else ([], [])
  let consNote :=
    if 70 ≤ metrics.consistency then (["Consistent quality across answers"], ([] : List String))
    else if metrics.consistency < 50 then ([], ["Inconsistent depth across topics"])
    else ([], [])
  { decision := decision
    overallScore := overallScore
    metrics := metrics
    reasons := skillNote.1 ++ authNote.1 ++ depthNote.1 ++ consNote.1
    concerns := (match early with | some (_, c) => [c] | none => [])
      ++ skillNote.2 ++ authNote.2 ++ depthNote.2 ++ consNote.2
    confidence := calculateDecisionConfidence metrics decision }

/-! ## engine/SkillMapper.js and its constants -/

/-- `SKILL_CATEGORIES` (constants.js 196–221). -/
def SKILL_CATEGORIES : List (String × List String) :=
  [("programming",
    ["javascript", "python", "java", "c++", "c#", "typescript", "go", "rust",
     "ruby", "php", "swift", "kotlin", "scala", "r", "matlab", "perl", "bash",
     "powershell", "sql"]),
   ("frameworks",
    ["react", "angular", "vue", "node.js", "express", "django", "flask",
     "spring", "rails", "next.js", "nuxt", "svelte", "fastapi", "nest.js",
     ".net", "laravel"]),
   ("databases",
    ["mysql", "postgresql", "mongodb", "redis", "elasticsearch", "cassandra",
     "dynamodb", "firebase", "sql server", "oracle", "sqlite"]),
   ("cloud",
    ["aws", "azure", "gcp", "docker", "kubernetes", "terraform", "ansible",
     "jenkins", "github actions", "gitlab ci", "circleci"]),
   ("tools",
    ["git", "jira", "confluence", "slack", "figma", "postman", "swagger",
     "graphql", "rest api", "microservices", "agile", "scrum"]),
   ("data",
    ["machine learning", "deep learning", "tensorflow", "pytorch", "pandas",
     "numpy", "scikit-learn", "data analysis", "statistics", "big data",
     "spark", "hadoop"])]

/-- `SKILL_ALIASES` (constants.js 224–266). -/
def SKILL_ALIASES : List (String × List String) :=
  [("react", ["reactjs", "react.js", "react js"]),
   ("node.js", ["nodejs", "node", "node js"]),
   ("next.js", ["nextjs", "next"]),
   ("vue", ["vuejs", "vue.js", "vue js"]),
   ("angular", ["angularjs", "angular.js"]),
   ("express", ["expressjs", "express.js"]),
   ("typescript", ["ts"]),
   ("javascript", ["js", "ecmascript", "es6", "es2015"]),
   ("python", ["python3", "py"]),
   ("django", ["djangorest", "drf"]),
   ("flask", ["flaskapi"]),
   ("pandas", ["pd"]),
   ("numpy", ["np"]),
   ("postgresql", ["postgres", "psql", "pg"]),
   ("mongodb", ["mongo"]),
   ("mysql", ["mariadb"]),
   ("redis", ["redisdb"]),
   ("sql server", ["mssql", "tsql", "t-sql"]),
   ("aws", ["amazon web services", "amazon aws"]),
   ("azure", ["microsoft azure", "azure cloud"]),
   ("gcp", ["google cloud", "google cloud platform"]),
   ("kubernetes", ["k8s", "kube"]),
   ("docker", ["dockerfile", "containers"]),
   ("terraform", ["tf", "terragrunt"]),
   ("ci/cd", ["cicd", "continuous integration", "continuous deployment"]),
   ("github actions", ["gh actions", "gha"]),
   ("machine learning", ["ml", "ai", "artificial intelligence"]),
   ("deep learning", ["dl", "neural networks"]),
   ("rest api", ["restful", "rest apis", "restful api"]),
   ("graphql", ["gql"]),
   ("microservices", ["micro services", "micro-services"]),
   ("agile", ["agile methodology", "scrum", "kanban"])]

/-- The flattened `(skill, category)` scan list (SkillMapper.js 71–73). -/
def allSkills : List (String × String) :=
  SKILL_CATEGORIES.flatMap (fun sc => sc.2.map (fun skill => (skill, sc.1)))

/-- The flattened `(alias, canonical)` scan list (SkillMapper.js 76–78). -/
def allAliases : List (String × String) :=
  SKILL_ALIASES.flatMap (fun ca => ca.2.map (fun al => (al, ca.1)))

/-- Strip leading and trailing whitespace (JS `String.prototype.trim`). -/
def jsTrim (l : List Char) : List Char :=
  ((l.dropWhile isJsWs).reverse.dropWhile isJsWs).reverse

/-- Split a character list on a separator character (JS
`String.prototype.split` with a one-character separator). -/
def splitOnChar (sep : Char) : List Char → List (List Char)
  | [] => [[]]
  | c :: cs =>
    let rest := splitOnChar sep cs
    if c = sep then [] :: rest
    else match rest with
      | [] => [[c]]
      | seg :: segs => (c :: seg) :: segs

/-- Split a character list on `.`. -/
def splitOnDot : List Char → List (List Char) := splitOnChar '.'

/-- `findSkillContext(text, skill)` (SkillMapper.js 134–138): the unescaped
regex `[^.]*\b<skill>\b[^.]*\.` — compilation fails for skills such as
"c++"; otherwise it matches, case-insensitively, the first dot-terminated
segment containing the skill as a whole word (a dot inside the skill acts
as the wildcard within the segment; a wildcard consuming the separating
dot itself is not modelled), returned trimmed, or `''` with no match. -/
def findSkillContext (text skill : String) : Except String String :=
  if regexTailOk skill.data 0 then
    match lowerL skill.data with
    | [] => .ok ""
    | p :: ps =>
      match (splitOnDot text.data).dropLast.find?
          (fun seg => 0 < countWWAux true p ps (lowerL seg) none 0) with
      | some seg => .ok ⟨jsTrim (seg ++ ['.'])⟩
      | none => .ok ""
  else .error "SyntaxError: Invalid regular expression: nothing to repeat"

/-- One extracted skill record (SkillMapper.js 86–93 and 115–123). -/
structure ExtractedSkill where
  skill : String
  originalMatch : Option String
  category : String
  mentions : Nat
  context : String
  evidence : String
deriving Repr, DecidableEq

/-- `context.slice(0, 100) + (context.length > 100 ? '...' : '')`. -/
def mkEvidence (context : String) : String :=
  jsSlice context 100 ++ (if 100 < context.length then "..." else "")

/-- Category of a canonical skill for the alias pass
(SkillMapper.js 107–113), defaulting to `tools`. -/
def categoryOfCanonical (canonical : String) : String :=
  ((SKILL_CATEGORIES.find? (fun sc => sc.2.contains canonical)).map (fun sc => sc.1)).getD
    "tools"

/-- The canonical-skill pass of `extractSkillsFromResume` (SkillMapper.js
81–96): the search regex is escaped (a literal whole-word match), the
context regex is not. -/
def canonicalPass (resumeText : String) :
    List (String × String) → List String → Except String (List ExtractedSkill × List String)
  | [], found => .ok ([], found)
  | (skill, cat) :: rest, found =>
    if 0 < countWholeWordCI false skill resumeText ∧ ¬ found.contains (jsLower skill) then do
      let context ← findSkillContext resumeText skill
      let (tail, found') ← canonicalPass resumeText rest (jsLower skill :: found)
      return (⟨skill, none, cat, countWholeWordCI false skill resumeText,
        context, mkEvidence context⟩ :: tail, found')
    else
      canonicalPass resumeText rest found

/-- The alias pass of `extractSkillsFromResume` (SkillMapper.js 99–126). -/
def aliasPass (resumeText : String) :
    List (String × String) → List String → Except String (List ExtractedSkill × List String)
  | [], found => .ok ([], found)
  | (al, canonical) :: rest, found =>
    if found.contains canonical then aliasPass resumeText rest found
    else
      if 0 < countWholeWordCI false al resumeText then do
        let context ← findSkillContext resumeText al
        let (tail, found') ← aliasPass resumeText rest (canonical :: found)
        return (⟨canonical, some al, categoryOfCanonical canonical,
          countWholeWordCI false al resumeText, context, mkEvidence context⟩ :: tail, found')
      else
        aliasPass resumeText rest found

/-- `extractSkillsFromResume(resumeText)` (SkillMapper.js 66–129). -/
def extractSkillsFromResume (resumeText : String) : Except String (List ExtractedSkill) := do
  let (canonicals, found) ← canonicalPass resumeText allSkills []
  let (aliased, _) ← aliasPass resumeText allAliases found
  return canonicals ++ aliased

/-- A job description as supplied by the persistence collaborator. -/
structure JobDescription where
  requiredSkills : List String
  preferredSkills : List String
  experienceLevel : String
  roleExpectations : String
deriving Repr, DecidableEq

/-- One requirement entry; `weight10` is the weight in tenths (1.0 / 0.5). -/
structure ReqEntry where
  skill : String
  importance : String
  weight10 : Nat
deriving Repr, DecidableEq

/-- Parsed requirements (SkillMapper.js 145–162). -/
structure Requirements where
  mustHave : List ReqEntry
  niceToHave : List ReqEntry
  experienceLevel : String
  expectations : String
deriving Repr, DecidableEq

/-- `parseJobRequirements(jobDescription)` (SkillMapper.js 145–162). -/
def parseJobRequirements (jd : JobDescription) : Requirements :=
  { mustHave := jd.requiredSkills.map (fun s => ⟨jsLower s, "required", 10⟩)
    niceToHave := jd.preferredSkills.map (fun s => ⟨jsLower s, "preferred", 5⟩)
    experienceLevel := jd.experienceLevel
    expectations := jd.roleExpectations }

/-- `calculateSkillConfidence(skill)` (SkillMapper.js 275–294). -/
def calculateSkillConfidence (sk : ExtractedSkill) : Nat :=
  min (50 + min (sk.mentions * 10) 25
    + (if 50 < sk.context.length then 10 else 0)
    + (if 100 < sk.context.length then 10 else 0)
    + (if containsCI sk.context "built" ∨ containsCI sk.context "developed" then 5 else 0)
    + (if containsCI sk.context "led" ∨ containsCI sk.context "managed" then 5 else 0)
    + (if containsCI sk.context "years" ∨ containsCI sk.context "experience" then 5 else 0)) 100

/-- A classified strong/weak entry; the preferred-skill branch does not
record `mentions`. -/
structure MatchEntry where
  skill : String
  importance : String
  weight10 : Nat
  evidence : String
  confidence : Nat
  mentions : Option Nat
deriving Repr, DecidableEq

/-- An extra (unrequested) skill entry. -/
structure ExtraEntry where
  skill : String
  category : String
  confidence : Nat
deriving Repr, DecidableEq

/-- The skill mapping (SkillMapper.js 174–269). -/
structure SkillMapping where
  strong : List MatchEntry
  weak : List MatchEntry
  missing : List ReqEntry
  extra : List ExtraEntry
  skillMatchScore : Nat
  totalRequired : Nat
  totalPreferred : Nat
  requirements : Requirements
deriving Repr, DecidableEq

/-- The resume-skill lookup for a required skill (SkillMapper.js 183–187):
equality or substring containment either way, on lowercased names. -/
def findRequiredMatch (resumeSkills : List ExtractedSkill) (req : ReqEntry) :
    Option ExtractedSkill :=
  resumeSkills.find? (fun s =>
    jsLower s.skill = jsLower req.skill
    ∨ seqContains (jsLower req.skill).data (jsLower s.skill).data
    ∨ seqContains (jsLower s.skill).data (jsLower req.skill).data)

/-- The resume-skill lookup for a preferred skill (SkillMapper.js 213–216):
equality or one-directional containment only. -/
def findPreferredMatch (resumeSkills : List ExtractedSkill) (req : ReqEntry) :
    Option ExtractedSkill :=
  resumeSkills.find? (fun s =>
    jsLower s.skill = jsLower req.skill
    ∨ seqContains (jsLower req.skill).data (jsLower s.skill).data)

/-- The pure tail of `mapSkillsToRequirements` (SkillMapper.js 174–269),
after skill extraction: classification into strong/weak/missing/extra and
`skillMatchScore = round(((strongRequired + 0.5·weakRequired)/totalRequired)·100)`
evaluated in binary64 (§ `F64`), 50 when there are no required skills. -/
def finishMapping (resumeSkills : List ExtractedSkill) (requirements : Requirements) :
    SkillMapping :=
  let reqClassified := requirements.mustHave.map
    (fun req => (req, findRequiredMatch resumeSkills req))
  let strongReq := reqClassified.filterMap (fun rm =>
    match rm.2 with
    | some m =>
      if 70 ≤ calculateSkillConfidence m then
        some (⟨rm.1.skill, rm.1.importance, rm.1.weight10, m.evidence,
          calculateSkillConfidence m, some m.mentions⟩ : MatchEntry)
      else none
    | none => none)
  let weakReq := reqClassified.filterMap (fun rm =>
    match rm.2 with
    | some m =>
      if 70 ≤ calculateSkillConfidence m then none
      else
        some (⟨rm.1.skill, rm.1.importance, rm.1.weight10, m.evidence,
          calculateSkillConfidence m, some m.mentions⟩ : MatchEntry)
    | none => none)
  let missing := reqClassified.filterMap (fun rm =>
    match rm.2 with
    | some _ => none
    | none => some rm.1)
  let prefClassified := requirements.niceToHave.map
    (fun req => (req, findPreferredMatch resumeSkills req))
  let strongPref := prefClassified.filterMap (fun rm =>
    match rm.2 with
    | some m =>
      if 60 ≤ calculateSkillConfidence m then
        some (⟨rm.1.skill, rm.1.importance, rm.1.weight10, m.evidence,
          calculateSkillConfidence m, none⟩ : MatchEntry)
      else none
    | none => none)
  let weakPref := prefClassified.filterMap (fun rm =>
    match rm.2 with
    | some m =>
      if 60 ≤ calculateSkillConfidence m then none
      else
        some (⟨rm.1.skill, rm.1.importance, rm.1.weight10, m.evidence,
          calculateSkillConfidence m, none⟩ : MatchEntry)
    | none => none)
  let strong := strongReq ++ strongPref
  let weak := weakReq ++ weakPref
  let extra := (resumeSkills.filter (fun s =>
    ¬ requirements.mustHave.any (fun r => jsLower r.skill = jsLower s.skill)
    ∧ ¬ requirements.niceToHave.any (fun r => jsLower r.skill = jsLower s.skill))).map
      (fun s => (⟨s.skill, s.category, calculateSkillConfidence s⟩ : ExtraEntry))
  let totalRequired := requirements.mustHave.length
  let sR := (strong.filter (fun e => e.importance = "required")).length
  let wR := (weak.filter (fun e => e.importance = "required")).length
  let skillMatchScore :=
    if 0 < totalRequired then
      ((((F64.ofNat sR).add ((F64.ofNat wR).mul (roundRatio 1 2))).div
        (F64.ofNat totalRequired)).mul (F64.ofNat 100)).jsRound
    else 50
  { strong := strong, weak := weak, missing := missing, extra := extra
    skillMatchScore := skillMatchScore
    totalRequired := totalRequired
    totalPreferred := requirements.niceToHave.length
    requirements := requirements }

/-- `mapSkillsToRequirements(resumeText, jobDescription)` (SkillMapper.js
170–270). -/
def mapSkillsToRequirements (resumeText : String) (jd : JobDescription) :
    Except String SkillMapping := do
  let resumeSkills ← extractSkillsFromResume resumeText
  return finishMapping resumeSkills (parseJobRequirements jd)

/-- One skill flagged for targeted interview questioning. -/
structure FocusSkill where
  skill : String
  priority : String
  reason : String
deriving Repr, DecidableEq

/-- `identifyFocusSkills(skillMapping)` (SkillMapper.js 301–337). -/
def identifyFocusSkills (m : SkillMapping) : List FocusSkill :=
  ((m.weak.filter (fun s => s.importance = "required")).map
    (fun s => (⟨s.skill, "high",
      "Required skill with low confidence - needs verification"⟩ : FocusSkill)))
  ++ (m.missing.map (fun s => (⟨s.skill, "high",
      "Required skill not found in resume - needs discussion"⟩ : FocusSkill)))
  ++ (((m.strong.filter (fun s => s.importance = "required")).take 3).map
    (fun s => (⟨s.skill, "medium",
      "Key skill to validate depth of experience"⟩ : FocusSkill)))

/-! ## engine/FollowUpEngine.js and its constants -/

/-- `FOLLOWUP_TEMPLATES.specificity` (constants.js 127–132). -/
def followupSpecificity : List String :=
  ["Can you walk me through a specific example of how you applied this?",
   "What were the measurable results or outcomes from that experience?",
   "Can you describe a particular situation where you used {skill} in detail?",
   "What specific challenges did you face and how did you overcome them?"]

/-- `FOLLOWUP_TEMPLATES.depth` (constants.js 134–139). -/
def followupDepth : List String :=
  ["How did you know that was the right approach?",
   "What alternatives did you consider before choosing that solution?",
   "What would you do differently if you faced this situation again?",
   "What did you learn from that experience that you still apply today?"]

/-- `FOLLOWUP_TEMPLATES.consistency` (constants.js 141–145). -/
def followupConsistency : List String :=
  ["You mentioned {detail} - can you elaborate on that?",
   "That\x27s interesting. How does this connect to your overall experience with {skill}?",
   "Can you tell me more about {detail} and how it impacted the outcome?"]

/-- `FOLLOWUP_TEMPLATES.contextual` (constants.js 148–153). -/
def followupContextual : List String :=
  ["You mentioned {topic} - can you share more about your role in that?",
   "Tell me more about the {topic} aspect. What was your specific contribution?",
   "That\x27s interesting about {topic}. What were the key lessons from that experience?",
   "Can you elaborate on how {topic} helped you achieve results?"]

/-- The "suspiciously perfect" phrases (FollowUpEngine.js 375–378). -/
def perfectIndicators : List String :=
  ["seamlessly", "flawlessly", "perfectly", "without any issues",
   "everything worked", "no problems", "exactly as planned"]

/-- Presence of any suspiciously-perfect phrase. -/
def hasPerfectLanguage (answer : String) : Bool :=
  perfectIndicators.any (fun p => containsCI answer p)

/-- The metrics block of a follow-up analysis. -/
structure AnalysisMetrics where
  isGeneric : Bool
  genericScore : Nat
  specificityScore : Nat
  firstPersonCount : Nat
  answerLength : Nat
deriving Repr, DecidableEq

/-- Result of `analyzeNeedForFollowUp`. -/
structure FollowUpAnalysis where
  needsFollowUp : Bool
  reason : Option String
  followUpType : Option String
  confidence : Nat
  metrics : AnalysisMetrics
deriving Repr, DecidableEq

/-- `analyzeNeedForFollowUp(answer, question)` (FollowUpEngine.js 332–392):
the four triggers are evaluated first-match-wins, and the perfect-language
check afterwards overrides whatever they set. -/
def analyzeNeedForFollowUp (answer : String) : FollowUpAnalysis :=
  let g := detectGenericPatterns answer
  let spec := calculateSpecificityScore answer
  let fp := countFirstPersonIndicators answer
  let base : Bool × Option String × Option String × Nat :=
    if g.isGeneric ∧ 30 < g.genericScore then
      (true, some "Answer contains generic patterns", some "specificity", 85)
    else if spec < 30 then
      (true, some "Answer lacks specific details", some "specificity", 80)
    else if fp < 2 ∧ 100 < answer.length then
      (true, some "Answer lacks personal context", some "depth", 70)
    else if answer.length < 75 then
      (true, some "Answer is too brief", some "depth", 75)
    else (false, none, none, 0)
  let final :=
    if hasPerfectLanguage answer then
      (true, some "Answer is suspiciously perfect", some "consistency", 90)
    else base
  { needsFollowUp := final.1
    reason := final.2.1
    followUpType := final.2.2.1
    confidence := final.2.2.2
    metrics := ⟨g.isGeneric, g.genericScore, spec, fp, answer.length⟩ }

/-- Business topic keywords (FollowUpEngine.js 403–408). -/
def businessTopics : List String :=
  ["sales", "marketing", "B2B", "B2C", "startup", "revenue", "growth",
   "customer", "client", "strategy", "analytics", "statistics", "data",
   "team", "leadership", "management", "project", "campaign", "budget",
   "partnership", "negotiation", "presentation", "communication"]

/-- Technical topic keywords (FollowUpEngine.js 410–414). -/
def technicalTopics : List String :=
  ["coding", "programming", "development", "debugging", "testing",
   "deployment", "architecture", "database", "API", "frontend", "backend",
   "optimization", "performance", "security", "integration"]

/-- Case-insensitive literal prefix test: `pat` is lowercase, the text keeps
its original case. -/
def litAtCI : List Char → List Char → Bool
  | [], _ => true
  | _ :: _, [] => false
  | p :: ps, c :: cs => p = lowerChar c ∧ litAtCI ps cs

/-- `([^,.]+?)(?:,|\.|$)`: the capture is the non-empty run up to the first
`,` or `.` (or the end); returns it with the total consumed length
(including a consumed terminator). -/
def captureToTerminator (cs : List Char) : Option (List Char × Nat) :=
  let run := cs.takeWhile (fun c => ¬ (c = ',' ∨ c = '.'))
  if run.length = 0 then none
  else some (run, run.length + (if run.length < cs.length then 1 else 0))

/-- A match attempt of
`/worked (?:for|at|with) (?:a |an |my |the )?([^,.]+?)(?:,|\.|$)/gi`
at the start of `cs`, returning capture and consumed length. -/
def w1At (cs : List Char) : Option (List Char × Nat) :=
  if litAtCI "worked ".data cs then
    let cs1 := cs.drop 7
    ["for ", "at ", "with "].findSome? fun w =>
      if litAtCI w.data cs1 then
        let cs2 := cs1.drop w.length
        let withArt := ["a ", "an ", "my ", "the "].findSome? fun art =>
          if litAtCI (lowerL art.data) cs2 then
            (captureToTerminator (cs2.drop art.length)).map fun cp =>
              (cp.1, 7 + w.length + art.length + cp.2)
          else none
        match withArt with
        | some r => some r
        | none => (captureToTerminator cs2).map fun cp => (cp.1, 7 + w.length + cp.2)
      else none
  else none

/-- A word-character run (regex `\w*`). -/
def wordRun (cs : List Char) : List Char := cs.takeWhile isWordChar

/-- The capture `(\w+ ?\w*)` of the friend pattern: a non-empty word run,
then greedily one space and a second (possibly empty) word run. -/
def friendCapture (cs : List Char) : Option (List Char × Nat) :=
  let r1 := wordRun cs
  if r1.length = 0 then none
  else
    match cs.drop r1.length with
    | ' ' :: rest =>
      let r2 := wordRun rest
      some (r1 ++ [' '] ++ r2, r1.length + 1 + r2.length)
    | _ => some (r1, r1.length)

/-- A match attempt of `/(?:my |a |the )?friend'?s? (\w+ ?\w*)/gi` at the
start of `cs`. -/
def w2At (cs : List Char) : Option (List Char × Nat) :=
  ["my ", "a ", "the ", ""].findSome? fun pre =>
    if litAtCI (lowerL pre.data) cs then
      let cs1 := cs.drop pre.length
      if litAtCI "friend".data cs1 then
        let cs2 := cs1.drop 6
        ["\x27", ""].findSome? fun apo =>
          if litAtCI apo.data cs2 then
            let cs3 := cs2.drop apo.length
            ["s", ""].findSome? fun es =>
              if litAtCI es.data cs3 then
                let cs4 := cs3.drop es.length
                match cs4 with
                | ' ' :: cs5 =>
                  (friendCapture cs5).map fun cp =>
                    (cp.1, pre.length + 6 + apo.length + es.length + 1 + cp.2)
                | _ => none
              else none
          else none
      else none
    else none

/-- A match attempt of
`/helped (?:me |us )?(?:understand |learn |with )?([^,.]+?)(?:,|\.|$)/gi`
at the start of `cs`. -/
def w3At (cs : List Char) : Option (List Char × Nat) :=
  if litAtCI "helped ".data cs then
    let cs1 := cs.drop 7
    ["me ", "us ", ""].findSome? fun o1 =>
      if litAtCI (lowerL o1.data) cs1 then
        let cs2 := cs1.drop o1.length
        ["understand ", "learn ", "with ", ""].findSome? fun o2 =>
          if litAtCI (lowerL o2.data) cs2 then
            (captureToTerminator (cs2.drop o2.length)).map fun cp =>
              (cp.1, 7 + o1.length + o2.length + cp.2)
          else none
      else none
  else none

/-- Global capture collection (`String.prototype.matchAll`): scan left to
right, resuming after each match. -/
def scanCaptures (f : List Char → Option (List Char × Nat)) : List Char → Nat → List (List Char)
  | [], _ => []
  | _ :: cs, skip + 1 => scanCaptures f cs skip
  | c :: cs, 0 =>
    match f (c :: cs) with
    | some (cap, n) => cap :: scanCaptures f cs (max n 1 - 1)
    | none => scanCaptures f cs 0

/-- `extractKeyTopics(answer)` (FollowUpEngine.js 399–446): up to 3 keyword
topics plus up to 2 extracted phrases of believable length. -/
def extractKeyTopics (answer : String) : List String :=
  let topics := (businessTopics ++ technicalTopics).filter
    (fun t => containsCI answer (jsLower t))
  let phrases := ((scanCaptures w1At answer.data 0) ++ (scanCaptures w2At answer.data 0)
      ++ (scanCaptures w3At answer.data 0)).filterMap fun cap =>
    let tr := jsTrim cap
    if 2 < tr.length ∧ tr.length < 30 then some (⟨tr⟩ : String) else none
  topics.take 3 ++ phrases.take 2

/-- `getUnusedTemplate(templates)` (FollowUpEngine.js 318–324) with the
session's used-template set passed explicitly and the uniform random index
given by `pick` (reduced modulo the number of available templates). -/
def getUnusedTemplate (templates used : List String) (pick : Nat) :
    Option String × List String :=
  let available := templates.filter (fun t => ¬ used.contains t)
  if available.isEmpty then (none, used)
  else
    let sel := available.getD (pick % available.length) ""
    (some sel, sel :: used)

/-- Stop words of `extractDetailFromAnswer` (FollowUpEngine.js 535). -/
def detailStop : List String :=
  ["about", "which", "their", "would", "could", "should", "there"]

/-- `replace(/[.,!?]/g, '')`. -/
def stripPunct (w : List Char) : List Char :=
  w.filter (fun c => ¬ (c = '.' ∨ c = ',' ∨ c = '!' ∨ c = '?'))

/-- `extractDetailFromAnswer(answer)` (FollowUpEngine.js 529–547). -/
def extractDetailFromAnswer (answer : String) : Option String :=
  let words := splitOnChar ' ' answer.data
  let technicalWords := words.filter fun w =>
    let lw := lowerL (stripPunct w)
    4 < lw.length ∧ ¬ detailStop.contains (⟨lw⟩ : String)
  match technicalWords.head? with
  | none => none
  | some w0 =>
    let idx := (words.findIdx? (fun w => w = w0)).getD 0
    let start := idx - 2
    let stop := min words.length (idx + 3)
    some ⟨stripPunct (List.intercalate [' '] ((words.drop start).take (stop - start)))⟩

/-- A generated follow-up question (FollowUpEngine.js 515–523). -/
structure FollowUpQuestion where
  id : String
  type : String
  parentQuestionId : String
  text : String
  reason : Option String
  skill : String
  followUpType : Option String
deriving Repr, DecidableEq

/-- `generateFollowUpQuestion(analysis, originalQuestion, answer)`
(FollowUpEngine.js 455–524).  The module-scoped used-template set is passed
in and returned; `r1 r2 r3` supply the random template indices of the
contextual, type-specific and fallback choices. -/
def generateFollowUpQuestion (r1 r2 r3 : Nat) (used : List String)
    (analysis : FollowUpAnalysis) (originalQuestion : Question) (answer : String) :
    FollowUpQuestion × List String :=
  let skillName := if originalQuestion.skill = "" then "this area" else originalQuestion.skill
  let keyTopics := extractKeyTopics answer
  let contextual :=
    if ¬ keyTopics.isEmpty then
      match getUnusedTemplate followupContextual used r1 with
      | (some t, u) => (some (jsReplaceAll t "{topic}" (keyTopics.getD 0 "")), u)
      | (none, u) => (none, u)
    else (none, used)
  let typed :=
    match contextual.1 with
    | some q => (some q, contextual.2)
    | none =>
      match analysis.followUpType with
      | some "specificity" => getUnusedTemplate followupSpecificity contextual.2 r2
      | some "depth" => getUnusedTemplate followupDepth contextual.2 r2
      | some "consistency" => getUnusedTemplate followupConsistency contextual.2 r2
      | _ => (none, contextual.2)
  let chosen :=
    match typed.1 with
    | some q => (q, typed.2)
    | none =>
      let fallbacks :=
        ["Can you walk me through a specific example of how you applied "
            ++ skillName ++ " in practice?",
         "What measurable results did you achieve when working with "
            ++ skillName ++ "?",
         "Tell me more about the challenges you faced with " ++ skillName
            ++ " and how you overcame them.",
         "Could you describe your day-to-day experience working with "
            ++ skillName ++ "?"]
      (fallbacks.getD (r3 % fallbacks.length) "", typed.2)
  let q1 := jsReplaceAll chosen.1 "{skill}" skillName
  let detail := extractDetailFromAnswer answer
  let q2 :=
    match detail with
    | some d =>
      if 3 < d.length then jsReplaceAll q1 "{detail}" ("\"" ++ d ++ "\"")
      else jsReplaceAll q1 "{detail}" ("your experience with " ++ skillName)
    | none => jsReplaceAll q1 "{detail}" ("your experience with " ++ skillName)
  let q3 := jsReplaceAll q2 "{topic}" ("your work with " ++ skillName)
  ({ id := originalQuestion.id ++ "-followup"
     type := "followup"
     parentQuestionId := originalQuestion.id
     text := q3
     reason := analysis.reason
     skill := originalQuestion.skill
     followUpType := analysis.followUpType }, chosen.2)

/-- `getMaxFollowUps(question)` (FollowUpEngine.js 554–563). -/
def getMaxFollowUps (question : Question) : Nat :=
  if question.priority = "high" then 2
  else if question.priority = "medium" then 1
  else 1

/-! ## Claim theorems -/

/-- C1: the claim says `scoreAnswerAuthenticity` returns a result for every
answer and every question (any skill name, including the pattern library's
"c++"), never letting an exception escape.  The code disagrees: "c++" is in
the skill table, and `countSkillMentions` interpolates it unescaped into
`new RegExp("\\b" + skill + "\\b", "gi")`, whose construction throws, so
`scoreAnswerAuthenticity` propagates the fault for any answer. -/
theorem C1_scoreAnswerAuthenticity_throws_on_cpp :
    (allSkills.map Prod.fst).contains "c++" = true
    ∧ scoreAnswerAuthenticity "I have used c++ on two large projects."
        ⟨"q1", "c++", "experience", "high", "Tell me about a project where you used c++."⟩
      = Except.error "SyntaxError: Invalid regular expression: nothing to repeat" :=
  ⟨by decide, rfl⟩

/-- C3: on the given answer `detectGenericPatterns` does find at least three
phrases and reports `isGeneric`, but it finds four ("typically",
"best practice", "standard approach", "it depends"), so `genericScore` is
`min(4·15, 100) = 60`, not the claimed 45. -/
theorem C3_counterexample :
    (detectGenericPatterns "It depends on the situation, and typically the standard approach is best practice").genericScore
        = 60
    ∧ ¬ ((detectGenericPatterns "It depends on the situation, and typically the standard approach is best practice").genericScore
        = 45) := by
  constructor
  · rfl
  · decide

/-- C3 (amended): on the answer "It depends on the situation, and typically
the standard approach is best practice", `detectGenericPatterns` finds at
least 3 matching phrases (exactly 4), returns `isGeneric = true`, and
returns `genericScore = 60`. -/
theorem C3_amended_genericScore :
    3 ≤ (detectGenericPatterns "It depends on the situation, and typically the standard approach is best practice").patterns.length
    ∧ (detectGenericPatterns "It depends on the situation, and typically the standard approach is best practice").isGeneric = true
    ∧ (detectGenericPatterns "It depends on the situation, and typically the standard approach is best practice").genericScore = 60 := by
  refine ⟨by decide, rfl, rfl⟩

/-- C2: for every metrics record with `authenticity ≥ 40` and
`skillMatch ≥ 35` (so neither automatic reject fires), `makeDecision`
returns PASS iff `overallScore ≥ 70 ∧ skillMatch ≥ 70 ∧ authenticity ≥ 65`,
otherwise HOLD iff `overallScore ≥ 50 ∧ skillMatch ≥ 50`, otherwise
REJECT. -/
theorem C2_makeDecision_thresholds (m : EvalMetrics)
    (hauth : 40 ≤ m.authenticity) (hskill : 35 ≤ m.skillMatch) :
    ((makeDecision m).decision = "PASS"
      ↔ (70 ≤ (makeDecision m).overallScore ∧ 70 ≤ m.skillMatch ∧ 65 ≤ m.authenticity))
    ∧ ((makeDecision m).decision = "HOLD"
      ↔ (¬ (70 ≤ (makeDecision m).overallScore ∧ 70 ≤ m.skillMatch ∧ 65 ≤ m.authenticity)
          ∧ 50 ≤ (makeDecision m).overallScore ∧ 50 ≤ m.skillMatch))
    ∧ ((makeDecision m).decision = "REJECT"
      ↔ (¬ (70 ≤ (makeDecision m).overallScore ∧ 70 ≤ m.skillMatch ∧ 65 ≤ m.authenticity)
          ∧ ¬ (50 ≤ (makeDecision m).overallScore ∧ 50 ≤ m.skillMatch))) := by
  have hov : (makeDecision m).overallScore = overallWeightedScore m := rfl
  have h1 : ¬ (m.authenticity < 40) := by omega
  have h2 : ¬ (m.skillMatch < 35) := by omega
  have hde : (makeDecision m).decision =
      (if 70 ≤ overallWeightedScore m ∧ 70 ≤ m.skillMatch ∧ 65 ≤ m.authenticity then "PASS"
       else if 50 ≤ overallWeightedScore m ∧ 50 ≤ m.skillMatch then "HOLD"
       else "REJECT") := by
    simp only [makeDecision, h1, if_false, h2, passThresholds, holdThresholds]
  rw [hde, hov]
  by_cases hP : 70 ≤ overallWeightedScore m ∧ 70 ≤ m.skillMatch ∧ 65 ≤ m.authenticity
    <;> by_cases hH : 50 ≤ overallWeightedScore m ∧ 50 ≤ m.skillMatch
    <;> simp only [hP, hH, if_true, if_false, if_pos, if_neg, not_true, not_false_iff]
    <;> refine ⟨?_, ?_, ?_⟩ <;> simp [hP, hH] <;> intro h <;> simp_all

/-- C2 (witness): the threshold characterization applied to the spec's
Scenario 5 metrics (skillMatch 80, authenticity 70, depth 60,
communication 60, consistency 70): `overallScore = 70` and the decision is
PASS. -/
theorem C2_makeDecision_thresholds_witness :
    40 ≤ (⟨80, 60, 70, 60, 70⟩ : EvalMetrics).authenticity
    ∧ 35 ≤ (⟨80, 60, 70, 60, 70⟩ : EvalMetrics).skillMatch
    ∧ (makeDecision ⟨80, 60, 70, 60, 70⟩).overallScore = 70
    ∧ (makeDecision ⟨80, 60, 70, 60, 70⟩).decision = "PASS" :=
  ⟨by decide, by decide, by decide,
    (C2_makeDecision_thresholds ⟨80, 60, 70, 60, 70⟩ (by decide) (by decide)).1.mpr
      (by refine ⟨by decide, by decide, by decide⟩)⟩

/-- C4: the claim — every length-50 answer with no first-person pronouns and
no metrics triggers a follow-up of type "depth" with reason "Answer is too
brief" — fails: "The system worked perfectly through the deployment" has
length 50, no first-person pronouns and no metrics, yet its specificity
score is below 30 (so the specificity trigger fires first) and it contains
the perfect-language phrase "perfectly", so the final override reports
type "consistency" with reason "Answer is suspiciously perfect". -/
theorem C4_counterexample :
    ("The system worked perfectly through the deployment" : String).length = 50
    ∧ countFirstPersonIndicators "The system worked perfectly through the deployment" = 0
    ∧ (detectMetrics "The system worked perfectly through the deployment").count = 0
    ∧ (analyzeNeedForFollowUp "The system worked perfectly through the deployment").reason
        = some "Answer is suspiciously perfect"
    ∧ (analyzeNeedForFollowUp "The system worked perfectly through the deployment").followUpType
        = some "consistency"
    ∧ ¬ ((analyzeNeedForFollowUp "The system worked perfectly through the deployment").followUpType
        = some "depth") := by
  refine ⟨rfl, rfl, rfl, rfl, rfl, by decide⟩

/-- C4 (amended): for every answer string of length 50 that contains no
first-person pronouns and no metrics, and that moreover does not fire the
two higher-priority triggers (its generic patterns do not reach the
`isGeneric ∧ genericScore > 30` trigger, its specificity score is at least
30) and contains no suspiciously-perfect phrase, `analyzeNeedForFollowUp`
returns `needsFollowUp = true` with `followUpType` "depth" and reason
"Answer is too brief". -/
theorem C4_amended_too_brief (answer : String)
    (hlen : answer.length = 50)
    (_hfp : countFirstPersonIndicators answer = 0)
    (_hmet : (detectMetrics answer).count = 0)
    (hgen : ¬ ((detectGenericPatterns answer).isGeneric = true
        ∧ 30 < (detectGenericPatterns answer).genericScore))
    (hspec : 30 ≤ calculateSpecificityScore answer)
    (hperf : hasPerfectLanguage answer = false) :
    (analyzeNeedForFollowUp answer).needsFollowUp = true
    ∧ (analyzeNeedForFollowUp answer).reason = some "Answer is too brief"
    ∧ (analyzeNeedForFollowUp answer).followUpType = some "depth" := by
  have h2 : ¬ (calculateSpecificityScore answer < 30) := by omega
  have h3 : ¬ (countFirstPersonIndicators answer < 2 ∧ 100 < answer.length) := by
    rw [hlen]; omega
  have h4 : answer.length < 75 := by omega
  simp only [analyzeNeedForFollowUp, hperf, Bool.false_eq_true, if_false,
    hgen, h2, h3, h4, if_true, if_neg, not_false_iff]
  exact ⟨trivial, trivial, trivial⟩

/-- C4 (witness): the amended theorem applied to the length-50 answer
"On a project, goal was to test; finally step done.", which has no
first-person pronouns, no metrics, no generic or perfect phrases, and
specificity score exactly 30. -/
theorem C4_amended_too_brief_witness :
    ("On a project, goal was to test; finally step done." : String).length = 50
    ∧ countFirstPersonIndicators "On a project, goal was to test; finally step done." = 0
    ∧ (detectMetrics "On a project, goal was to test; finally step done.").count = 0
    ∧ 30 ≤ calculateSpecificityScore "On a project, goal was to test; finally step done."
    ∧ hasPerfectLanguage "On a project, goal was to test; finally step done." = false
    ∧ (analyzeNeedForFollowUp "On a project, goal was to test; finally step done.").reason
        = some "Answer is too brief"
    ∧ (analyzeNeedForFollowUp "On a project, goal was to test; finally step done.").followUpType
        = some "depth" :=
  ⟨rfl, rfl, rfl, of_decide_eq_true rfl, rfl,
    (C4_amended_too_brief "On a project, goal was to test; finally step done."
      rfl rfl rfl (of_decide_eq_true rfl) (of_decide_eq_true rfl) rfl).2.1,
    (C4_amended_too_brief "On a project, goal was to test; finally step done."
      rfl rfl rfl (of_decide_eq_true rfl) (of_decide_eq_true rfl) rfl).2.2⟩

/-- C6: the weighted `overallScore` computed by `makeDecision` is monotone
in `skillMatch` when the other four metrics agree. -/
theorem C6_overallScore_monotone (m₁ m₂ : EvalMetrics)
    (hd : m₁.depth = m₂.depth) (ha : m₁.authenticity = m₂.authenticity)
    (hc : m₁.communication = m₂.communication) (hcs : m₁.consistency = m₂.consistency)
    (hs : m₁.skillMatch ≤ m₂.skillMatch) :
    (makeDecision m₁).overallScore ≤ (makeDecision m₂).overallScore := by
  show overallWeightedScore m₁ ≤ overallWeightedScore m₂
  unfold overallWeightedScore jsRoundDiv
  apply Nat.div_le_div_right
  omega

/-- C6 (witness): the monotonicity theorem applied to two concrete metric
records differing only in `skillMatch`. -/
theorem C6_overallScore_monotone_witness :
    (⟨50, 55, 60, 65, 45⟩ : EvalMetrics).skillMatch ≤ (⟨80, 55, 60, 65, 45⟩ : EvalMetrics).skillMatch
    ∧ (makeDecision ⟨50, 55, 60, 65, 45⟩).overallScore ≤ (makeDecision ⟨80, 55, 60, 65, 45⟩).overallScore :=
  ⟨by decide, C6_overallScore_monotone ⟨50, 55, 60, 65, 45⟩ ⟨80, 55, 60, 65, 45⟩ rfl rfl rfl rfl (by decide)⟩

/-- C7: the claimed formula fails because the code coalesces a stored
per-answer score of 0 to 50 (`authScore.score || 50`).  For a single
high-priority pair with score 0 and answer "hello", the code averages 50,
multiplies by consistency 50 and floors at 20, giving 25; the claim's
weighted mean of the raw scores gives round(0·50/100) = 0, floored to 20. -/
theorem C7_counterexample :
    (calculateOverallAuthenticity
        [⟨⟨"q1", "react", "experience", "high", "T"⟩, "hello",
          ⟨0, ⟨0, 0, 0, 0⟩, ⟨false, [], 0, 5, 0, 40, true⟩, []⟩⟩]).score = 25
    ∧ claimSessionScore
        [⟨⟨"q1", "react", "experience", "high", "T"⟩, "hello",
          ⟨0, ⟨0, 0, 0, 0⟩, ⟨false, [], 0, 5, 0, 40, true⟩, []⟩⟩] = 20
    ∧ ¬ ((calculateOverallAuthenticity
        [⟨⟨"q1", "react", "experience", "high", "T"⟩, "hello",
          ⟨0, ⟨0, 0, 0, 0⟩, ⟨false, [], 0, 5, 0, 40, true⟩, []⟩⟩]).score
      = claimSessionScore
        [⟨⟨"q1", "react", "experience", "high", "T"⟩, "hello",
          ⟨0, ⟨0, 0, 0, 0⟩, ⟨false, [], 0, 5, 0, 40, true⟩, []⟩⟩]) :=
  ⟨rfl, rfl, of_decide_eq_true rfl⟩

/-- C7 (amended): for every non-empty list of QA pairs,
`calculateOverallAuthenticity` returns
`score = max(round(averageScore·(consistencyScore/100)) − 3·redFlags, 20)`
where the round is JS `Math.round` of the binary64-evaluated product (so
e.g. average 45 with consistency 70 gives 31, not the exact half-up 32);
the returned `averageScore` is `round(weightedSum/totalWeight)` of the
float accumulations that weight each per-answer score — with a stored 0
entering as the neutral 50 (JS falsy coalescing) — by 1.5/1.0/0.7 for
high/medium/other priority; `consistencyScore` and `totalRedFlags` are the
session consistency and the red-flag count; the score is always at least
20; the risk level is "low" iff score ≥ 75, "medium" iff 55 ≤ score < 75,
else "high"; and `confidence = min(answerCount·15, 95)`. -/
theorem C7_amended_session_score (qaPairs : List QAPair) (h : qaPairs ≠ []) :
    (calculateOverallAuthenticity qaPairs).score
      = max (((F64.ofNat ((calculateOverallAuthenticity qaPairs).averageScore.getD 0)).mul
            ((F64.ofNat (sessionConsistency qaPairs)).div (F64.ofNat 100))).jsRound
          - sessionRedFlags qaPairs * 3) 20
    ∧ (calculateOverallAuthenticity qaPairs).averageScore
        = some (if 0 < (sessionTotalWeight qaPairs).num
            then ((sessionWeightedSum qaPairs).div (sessionTotalWeight qaPairs)).jsRound
            else 50)
    ∧ (calculateOverallAuthenticity qaPairs).consistencyScore
        = some (sessionConsistency qaPairs)
    ∧ (calculateOverallAuthenticity qaPairs).totalRedFlags
        = some (sessionRedFlags qaPairs)
    ∧ 20 ≤ (calculateOverallAuthenticity qaPairs).score
    ∧ ((calculateOverallAuthenticity qaPairs).riskLevel = some "low"
        ↔ 75 ≤ (calculateOverallAuthenticity qaPairs).score)
    ∧ ((calculateOverallAuthenticity qaPairs).riskLevel = some "medium"
        ↔ (55 ≤ (calculateOverallAuthenticity qaPairs).score
            ∧ (calculateOverallAuthenticity qaPairs).score < 75))
    ∧ ((calculateOverallAuthenticity qaPairs).riskLevel = some "high"
        ↔ (calculateOverallAuthenticity qaPairs).score < 55)
    ∧ (calculateOverallAuthenticity qaPairs).confidence = min (qaPairs.length * 15) 95 := by
  have hne : ¬ (qaPairs.length = 0) := fun hl => h (List.length_eq_zero.mp hl)
  have havg : (calculateOverallAuthenticity qaPairs).averageScore
      = some (if 0 < (sessionTotalWeight qaPairs).num
          then ((sessionWeightedSum qaPairs).div (sessionTotalWeight qaPairs)).jsRound
          else 50) := by
    simp only [calculateOverallAuthenticity]
    rw [if_neg hne]
  have hcons : (calculateOverallAuthenticity qaPairs).consistencyScore
      = some (sessionConsistency qaPairs) := by
    simp only [calculateOverallAuthenticity]
    rw [if_neg hne]
  have hflags : (calculateOverallAuthenticity qaPairs).totalRedFlags
      = some (sessionRedFlags qaPairs) := by
    simp only [calculateOverallAuthenticity]
    rw [if_neg hne]
  have hsc : (calculateOverallAuthenticity qaPairs).score
      = max (((F64.ofNat ((calculateOverallAuthenticity qaPairs).averageScore.getD 0)).mul
            ((F64.ofNat (sessionConsistency qaPairs)).div (F64.ofNat 100))).jsRound
          - sessionRedFlags qaPairs * 3) 20 := by
    rw [havg, Option.getD_some]
    simp only [calculateOverallAuthenticity]
    rw [if_neg hne]
  have hrl : (calculateOverallAuthenticity qaPairs).riskLevel
      = some (if 75 ≤ (calculateOverallAuthenticity qaPairs).score then "low"
          else if 55 ≤ (calculateOverallAuthenticity qaPairs).score then "medium"
          else "high") := by
    simp only [calculateOverallAuthenticity]
    rw [if_neg hne]
  have hcf : (calculateOverallAuthenticity qaPairs).confidence
      = min (qaPairs.length * 15) 95 := by
    simp only [calculateOverallAuthenticity]
    rw [if_neg hne]
  have hlb : 20 ≤ (calculateOverallAuthenticity qaPairs).score := by
    rw [hsc]; exact Nat.le_max_right _ _
  refine ⟨hsc, havg, hcons, hflags, hlb, ?_, ?_, ?_, hcf⟩ <;> rw [hrl] <;>
    by_cases h75 : 75 ≤ (calculateOverallAuthenticity qaPairs).score <;>
    by_cases h55 : 55 ≤ (calculateOverallAuthenticity qaPairs).score <;>
    simp only [h75, h55, if_true, if_false, if_pos, if_neg, not_false_iff] <;>
    simp_all <;> omega

/-- C7 (witness): the amended theorem applied to a single medium-priority
pair with score 60 and a non-empty answer: the score is at least 20
(it is in fact 30). -/
theorem C7_amended_session_score_witness :
    ([⟨⟨"q2", "api", "depth", "medium", "T2"⟩, "I debugged the api",
        ⟨60, ⟨0, 0, 0, 0⟩, ⟨false, [], 2, 18, 1, 80, true⟩, []⟩⟩] : List QAPair) ≠ []
    ∧ 20 ≤ (calculateOverallAuthenticity
        [⟨⟨"q2", "api", "depth", "medium", "T2"⟩, "I debugged the api",
          ⟨60, ⟨0, 0, 0, 0⟩, ⟨false, [], 2, 18, 1, 80, true⟩, []⟩⟩]).score :=
  ⟨by decide,
    (C7_amended_session_score
      [⟨⟨"q2", "api", "depth", "medium", "T2"⟩, "I debugged the api",
        ⟨60, ⟨0, 0, 0, 0⟩, ⟨false, [], 2, 18, 1, 80, true⟩, []⟩⟩] (by decide)).2.2.2.2.1⟩

/-- C8: the claim quantifies over every résumé text, but skill extraction
itself can throw: a résumé containing "c++" directly followed by a word
character (here "c++14") matches the escaped search regex for the table
skill "c++", and `findSkillContext` then interpolates "c++" unescaped into
`[^.]*\b c++ \b[^.]*\.`, whose compilation throws, so
`mapSkillsToRequirements` returns no score at all. -/
theorem C8_counterexample :
    (mapSkillsToRequirements "I use c++14 daily every week."
      ⟨["react"], [], "mid", ""⟩).toOption = none := by
  rfl

/-- `Except` bind on an error short-circuits. -/
theorem exceptBind_error {e : String} {f : α → Except String β} :
    (Except.error e >>= f) = Except.error e := rfl

/-- `Except` bind on an ok value applies the continuation. -/
theorem exceptBind_ok {a : α} {f : α → Except String β} :
    (Except.ok a >>= f) = f a := rfl

/-- C8 (amended): whenever `mapSkillsToRequirements` returns a mapping
(skill extraction can throw on regex-metacharacter skills, as shown by this
claim's counterexample), the mapping satisfies
`skillMatchScore = Math.round(((strongRequired + 0.5·weakRequired)/totalRequired)·100)`
— the expression evaluated in binary64, so e.g. 3 strong and 17 weak of 20
required give 57, not the exact half-up 58 — when the job description has
at least one required skill, and `skillMatchScore = 50` exactly when it
has none, for every résumé including the empty one. -/
theorem C8_amended_skillMatchScore (resumeText : String) (jd : JobDescription)
    (m : SkillMapping) (h : mapSkillsToRequirements resumeText jd = Except.ok m) :
    (0 < m.totalRequired →
      m.skillMatchScore
        = ((((F64.ofNat (m.strong.filter (fun e => e.importance = "required")).length).add
              ((F64.ofNat (m.weak.filter (fun e => e.importance = "required")).length).mul
                (roundRatio 1 2))).div
            (F64.ofNat m.totalRequired)).mul (F64.ofNat 100)).jsRound)
    ∧ (m.totalRequired = 0 → m.skillMatchScore = 50) := by
  unfold mapSkillsToRequirements at h
  cases he : extractSkillsFromResume resumeText with
  | error e =>
    rw [he, exceptBind_error] at h
    exact Except.noConfusion h
  | ok skills =>
    rw [he, exceptBind_ok] at h
    simp only [pure, Except.pure, Except.ok.injEq] at h
    subst h
    have hrfl : (finishMapping skills (parseJobRequirements jd)).skillMatchScore
        = if 0 < (finishMapping skills (parseJobRequirements jd)).totalRequired
          then ((((F64.ofNat ((finishMapping skills (parseJobRequirements jd)).strong.filter
                  (fun e => e.importance = "required")).length).add
                ((F64.ofNat ((finishMapping skills (parseJobRequirements jd)).weak.filter
                  (fun e => e.importance = "required")).length).mul (roundRatio 1 2))).div
              (F64.ofNat (finishMapping skills (parseJobRequirements jd)).totalRequired)).mul
              (F64.ofNat 100)).jsRound
          else 50 := rfl
    constructor
    · intro hT
      rw [hrfl, if_pos hT]
    · intro hT
      rw [hrfl, if_neg]
      omega

/-- C8 (witness): the amended theorem on the résumé "I built react apps."
against a job requiring only "react": extraction succeeds with the single
skill "react" (confidence 65, so a weak match), and the binary64 formula
gives `round((0.5/1)·100) = 50`. -/
theorem C8_amended_skillMatchScore_witness :
    mapSkillsToRequirements "I built react apps." ⟨["react"], [], "mid", ""⟩
      = Except.ok (finishMapping
          [⟨"react", none, "frameworks", 1, "I built react apps.", "I built react apps."⟩]
          (parseJobRequirements ⟨["react"], [], "mid", ""⟩))
    ∧ 0 < (finishMapping
          [⟨"react", none, "frameworks", 1, "I built react apps.", "I built react apps."⟩]
          (parseJobRequirements ⟨["react"], [], "mid", ""⟩)).totalRequired
    ∧ (finishMapping
          [⟨"react", none, "frameworks", 1, "I built react apps.", "I built react apps."⟩]
          (parseJobRequirements ⟨["react"], [], "mid", ""⟩)).skillMatchScore = 50 := by
  refine ⟨rfl, of_decide_eq_true rfl, ?_⟩
  rw [(C8_amended_skillMatchScore "I built react apps." ⟨["react"], [], "mid", ""⟩
      (finishMapping
        [⟨"react", none, "frameworks", 1, "I built react apps.", "I built react apps."⟩]
        (parseJobRequirements ⟨["react"], [], "mid", ""⟩)) rfl).1
    (of_decide_eq_true rfl)]
  exact of_decide_eq_true rfl

/-- Evidence built by the extraction passes is a 100-character slice plus at
most "...". -/
theorem mkEvidence_length_le (c : String) : (mkEvidence c).length ≤ 103 := by
  unfold mkEvidence
  rw [String.length_append]
  have h1 : (jsSlice c 100).length ≤ 100 := by
    show (c.data.take 100).length ≤ 100
    exact List.length_take_le 100 c.data
  have h2 : (if 100 < c.length then ("..." : String) else "").length ≤ 3 := by
    split_ifs <;> decide
  omega

/-- Every record produced by the canonical pass has evidence of at most 103
characters. -/
theorem canonicalPass_evidence_le (resumeText : String) :
    ∀ (l : List (String × String)) (found : List String)
      (res : List ExtractedSkill × List String),
      canonicalPass resumeText l found = .ok res →
      ∀ r ∈ res.1, r.evidence.length ≤ 103 := by
  intro l
  induction l with
  | nil =>
    intro found res h r hr
    cases h
    exact absurd hr (List.not_mem_nil r)
  | cons sc rest ih =>
    intro found res h r hr
    unfold canonicalPass at h
    split at h
    · cases hc : findSkillContext resumeText sc.1 with
      | error e =>
        rw [hc, exceptBind_error] at h
        exact Except.noConfusion h
      | ok context =>
        rw [hc, exceptBind_ok] at h
        cases hp : canonicalPass resumeText rest (jsLower sc.1 :: found) with
        | error e =>
          rw [hp, exceptBind_error] at h
          exact Except.noConfusion h
        | ok pr =>
          rw [hp, exceptBind_ok] at h
          simp only [pure, Except.pure, Except.ok.injEq] at h
          rw [← h] at hr
          rcases List.mem_cons.mp hr with hhead | htail
          · rw [hhead]
            exact mkEvidence_length_le context
          · exact ih _ pr hp r htail
    · exact ih found res h r hr

/-- Every record produced by the alias pass has evidence of at most 103
characters. -/
theorem aliasPass_evidence_le (resumeText : String) :
    ∀ (l : List (String × String)) (found : List String)
      (res : List ExtractedSkill × List String),
      aliasPass resumeText l found = .ok res →
      ∀ r ∈ res.1, r.evidence.length ≤ 103 := by
  intro l
  induction l with
  | nil =>
    intro found res h r hr
    cases h
    exact absurd hr (List.not_mem_nil r)
  | cons ac rest ih =>
    intro found res h r hr
    unfold aliasPass at h
    split at h
    · exact ih found res h r hr
    · split at h
      · cases hc : findSkillContext resumeText ac.1 with
        | error e =>
          rw [hc, exceptBind_error] at h
          exact Except.noConfusion h
        | ok context =>
          rw [hc, exceptBind_ok] at h
          cases hp : aliasPass resumeText rest (ac.2 :: found) with
          | error e =>
            rw [hp, exceptBind_error] at h
            exact Except.noConfusion h
          | ok pr =>
            rw [hp, exceptBind_ok] at h
            simp only [pure, Except.pure, Except.ok.injEq] at h
            rw [← h] at hr
            rcases List.mem_cons.mp hr with hhead | htail
            · rw [hhead]
              exact mkEvidence_length_le context
            · exact ih _ pr hp r htail
      · exact ih found res h r hr

/-- C5 (amended): whenever skill extraction returns (it can throw on skills
with regex metacharacters in the résumé), every produced
ExtractedSkill record has an `evidence` snippet of at most 103 characters:
the first 100 characters of the context sentence plus an appended "..."
when the context was longer. -/
theorem C5_amended_evidence_le (resumeText : String) :
    match extractSkillsFromResume resumeText with
    | .ok l => l.all (fun r => r.evidence.length ≤ 103) = true
    | .error _ => True := by
  cases h : extractSkillsFromResume resumeText with
  | error e => trivial
  | ok l =>
    unfold extractSkillsFromResume at h
    cases hc : canonicalPass resumeText allSkills [] with
    | error e =>
      rw [hc, exceptBind_error] at h
      exact Except.noConfusion h
    | ok cp =>
      obtain ⟨cps, cpf⟩ := cp
      rw [hc, exceptBind_ok] at h
      dsimp only at h
      cases ha : aliasPass resumeText allAliases cpf with
      | error e =>
        rw [ha, exceptBind_error] at h
        exact Except.noConfusion h
      | ok ap =>
        obtain ⟨aps, apf⟩ := ap
        rw [ha, exceptBind_ok] at h
        dsimp only at h
        simp only [pure, Except.pure, Except.ok.injEq] at h
        show (l.all fun r => decide (r.evidence.length ≤ 103)) = true
        rw [List.all_eq_true]
        intro r hr
        rw [← h] at hr
        rcases List.mem_append.mp hr with hcan | hal
        · exact decide_eq_true
            (canonicalPass_evidence_le resumeText allSkills [] (cps, cpf) hc r hcan)
        · exact decide_eq_true
            (aliasPass_evidence_le resumeText allAliases cpf (aps, apf) ha r hal)

/-- C5: the claimed bound of 100 characters fails: a résumé whose skill
sentence exceeds 100 characters yields an evidence snippet of exactly 103
characters (100 sliced characters plus "..."). -/
theorem C5_counterexample :
    ((extractSkillsFromResume "I spent several seasons building dashboards and internal tooling with react for thousands of happy customers worldwide.").toOption.getD []).map
        (fun r => r.evidence.length) = [103]
    ∧ ¬ (((extractSkillsFromResume "I spent several seasons building dashboards and internal tooling with react for thousands of happy customers worldwide.").toOption.getD []).all
        (fun r => r.evidence.length ≤ 100) = true) :=
  ⟨rfl, of_decide_eq_true rfl⟩

/-- C9: for every string `t` the specificity score and the overall
authenticity score are at most 100 (and, being naturals built from
nonnegative contributions, at least 0); and on the empty string every text
signal is the 0/false value: STAR score 0 with no components, first-person
count 0, metric count and score 0, no generic patterns, imperfection 0 and
specificity 0 — all without error. -/
theorem C9_signal_bounds :
    (∀ t : String, calculateSpecificityScore t ≤ 100
      ∧ (calculateAuthenticityScore t).overall ≤ 100)
    ∧ detectSTARMethod "" = ⟨0, ⟨false, false, false, false⟩, false, 0⟩
    ∧ countFirstPersonIndicators "" = 0
    ∧ detectMetrics "" = ⟨false, 0, 0⟩
    ∧ detectGenericPatterns "" = ⟨false, [], 0⟩
    ∧ calculateImperfectionScore "" = 0
    ∧ calculateSpecificityScore "" = 0 := by
  refine ⟨fun t => ⟨?_, ?_⟩, rfl, rfl, rfl, rfl, rfl, rfl⟩
  · simp only [calculateSpecificityScore]
    exact Nat.min_le_right _ _
  · simp only [calculateAuthenticityScore]
    exact Nat.min_le_right _ _

/-- C10: every follow-up question generated by `generateFollowUpQuestion`
carries the id of its original question with the fixed suffix "-followup",
whatever the analysis, answer, random choices and used-template state were;
hence any two follow-ups for the same original question (the budget allows
2 for a high-priority question) have identical ids. -/
theorem C10_followup_id (r1 r2 r3 r1' r2' r3' : Nat) (used used' : List String)
    (a1 a2 : FollowUpAnalysis) (q : Question) (ans1 ans2 : String)
    (id skill text reason : String) :
    (generateFollowUpQuestion r1 r2 r3 used a1 q ans1).1.id = q.id ++ "-followup"
    ∧ (generateFollowUpQuestion r1 r2 r3 used a1 q ans1).1.id
        = (generateFollowUpQuestion r1' r2' r3' used' a2 q ans2).1.id
    ∧ getMaxFollowUps ⟨id, skill, text, "high", reason⟩ = 2 :=
  ⟨rfl, rfl, rfl⟩

end Creda
